import Mathlib

/-!
Verification of `shell/platform/linux/fl_accessibility_plugin.cc`.

A shallow embedding of the accessibility plugin of the Linux shell:

* the message router `handle_message` with its four handlers, and
* the semantics-node printer
  `fl_accessibility_plugin_handle_update_semantics_node` with the
  destructive bit tests `has_flag` / `has_action`.

The C code has no result other than the returned `FlValue*` and the lines it
writes with `g_printerr`, `g_warning` and `g_debug`.  Every such call is
recorded, in program order, as one `Log` entry holding the format string of the
call and its arguments, so the embedding never has to interpret `printf`.
-/

namespace FlAccessibility

/-! ## Values carried by messages -/

/-- The type tags of `FlValue` (`FlValueType` of `fl_value.h`). -/
inductive FlValueType
  | FL_VALUE_TYPE_NULL
  | FL_VALUE_TYPE_BOOL
  | FL_VALUE_TYPE_INT
  | FL_VALUE_TYPE_FLOAT
  | FL_VALUE_TYPE_STRING
  | FL_VALUE_TYPE_UINT8_LIST
  | FL_VALUE_TYPE_INT32_LIST
  | FL_VALUE_TYPE_INT64_LIST
  | FL_VALUE_TYPE_FLOAT_LIST
  | FL_VALUE_TYPE_LIST
  | FL_VALUE_TYPE_MAP
  deriving DecidableEq, Repr

/-- An IEEE-754 binary64 value (`double`), kept as its three bit fields: the
sign bit, the 11-bit biased exponent and the 52-bit fraction. -/
structure Double where
  sign : Bool
  exponent : Nat
  mantissa : Nat
  deriving DecidableEq, Repr

/-- The tagged union `FlValue`.  `int` holds an `int64_t`, `string` a
NUL-terminated C string (given by its content), `map` the entries in insertion
order. -/
inductive FlValue
  | null
  | bool (b : Bool)
  | int (n : Int)
  | float (x : Double)
  | string (s : String)
  | uint8_list (xs : List Nat)
  | int32_list (xs : List Int)
  | int64_list (xs : List Int)
  | float_list (xs : List Double)
  | list (xs : List FlValue)
  | map (entries : List (FlValue × FlValue))

/-- The C function `fl_value_get_type`. -/
def fl_value_get_type : FlValue → FlValueType
  | .null => .FL_VALUE_TYPE_NULL
  | .bool _ => .FL_VALUE_TYPE_BOOL
  | .int _ => .FL_VALUE_TYPE_INT
  | .float _ => .FL_VALUE_TYPE_FLOAT
  | .string _ => .FL_VALUE_TYPE_STRING
  | .uint8_list _ => .FL_VALUE_TYPE_UINT8_LIST
  | .int32_list _ => .FL_VALUE_TYPE_INT32_LIST
  | .int64_list _ => .FL_VALUE_TYPE_INT64_LIST
  | .float_list _ => .FL_VALUE_TYPE_FLOAT_LIST
  | .list _ => .FL_VALUE_TYPE_LIST
  | .map _ => .FL_VALUE_TYPE_MAP

/-- The C function `fl_value_get_string`; the callers only use it on values
whose tag is `FL_VALUE_TYPE_STRING`. -/
def fl_value_get_string : FlValue → String
  | .string s => s
  | _ => ""

/-- The C function `fl_value_get_int`; the callers only use it on values whose
tag is `FL_VALUE_TYPE_INT`. -/
def fl_value_get_int : FlValue → Int
  | .int n => n
  | _ => 0

/-- First value of a map entry list whose key is the string `key`. -/
def lookup_entries (key : String) : List (FlValue × FlValue) → Option FlValue
  | [] => none
  | (.string k, v) :: rest => if k = key then some v else lookup_entries key rest
  | _ :: rest => lookup_entries key rest

/-- Modelled from the spec: `fl_value_lookup_string` belongs to the value
library (`fl_value.cc`), which is not part of the file under study.  The spec
describes messages as maps with a string `type`, an optional `data` map and an
optional integer `nodeId`, where a missing or wrong-typed field is logged and
answered with the empty response.  Accordingly the lookup yields the value
stored under the string key `key` when `self` is a map that has the key, and the
null pointer (`none`) otherwise, also when `self` is itself the null pointer or
is not a map.  Diagnostics the library may print on its own are not modelled. -/
def fl_value_lookup_string (self : Option FlValue) (key : String) : Option FlValue :=
  match self with
  | some (.map entries) => lookup_entries key entries
  | _ => none

/-! ## The log -/

/-- One argument of a `printf`-style call. -/
inductive Arg
  | int (n : Int)
  | uint (n : Nat)
  | dbl (x : Double)
  | str (s : String)
  deriving DecidableEq, Repr

/-- One diagnostic call, recorded with its format string and arguments. -/
inductive Log
  | g_printerr (fmt : String) (args : List Arg)
  | g_warning (fmt : String) (args : List Arg)
  | g_debug (fmt : String) (args : List Arg)
  deriving DecidableEq, Repr

/-- The glib conversion for `gint64` (`G_GINT64_FORMAT`) on 64-bit Linux. -/
def G_GINT64_FORMAT : String := "li"

/-! ## The message router -/

/-- The C function `handle_announce` (lines 21-33): the returned `FlValue*`
(`none` is `nullptr`) and the log it writes.  `self` is unused by the C code
and dropped. -/
def handle_announce (data : Option FlValue) : Option FlValue × List Log :=
  match fl_value_lookup_string data "message" with
  | none => (none, [.g_warning "Expected message string" []])
  | some message_value =>
    if fl_value_get_type message_value ≠ .FL_VALUE_TYPE_STRING then
      (none, [.g_warning "Expected message string" []])
    else
      let message := fl_value_get_string message_value
      (none, [.g_printerr "ANNOUNCE '%s'\n" [.str message]])

/-- The C function `handle_tap` (lines 36-40). -/
def handle_tap (node_id : Int) : Option FlValue × List Log :=
  (none, [.g_printerr ("TAP '%" ++ G_GINT64_FORMAT ++ "'\n") [.int node_id]])

/-- The C function `handle_long_press` (lines 43-48). -/
def handle_long_press (node_id : Int) : Option FlValue × List Log :=
  (none, [.g_printerr ("LONG-PRESS '%" ++ G_GINT64_FORMAT ++ "'\n") [.int node_id]])

/-- The C function `handle_tooltip` (lines 51-63). -/
def handle_tooltip (data : Option FlValue) : Option FlValue × List Log :=
  match fl_value_lookup_string data "message" with
  | none => (none, [.g_warning "Expected message string" []])
  | some message_value =>
    if fl_value_get_type message_value ≠ .FL_VALUE_TYPE_STRING then
      (none, [.g_warning "Expected message string" []])
    else
      let message := fl_value_get_string message_value
      (none, [.g_printerr "TOOLTIP '%s'\n" [.str message]])

/-- The C function `handle_message` (lines 66-99); `strcmp (a, b) == 0` is
equality of the two C strings. -/
def handle_message (message : FlValue) : Option FlValue × List Log :=
  if fl_value_get_type message ≠ .FL_VALUE_TYPE_MAP then
    (none, [.g_warning "Ignoring unknown flutter/accessibility message type" []])
  else
    match fl_value_lookup_string (some message) "type" with
    | none =>
      (none, [.g_warning "Ignoring unknown flutter/accessibility message with unknown type" []])
    | some type_value =>
      if fl_value_get_type type_value ≠ .FL_VALUE_TYPE_STRING then
        (none,
          [.g_warning "Ignoring unknown flutter/accessibility message with unknown type" []])
      else
        let type := fl_value_get_string type_value
        let data := fl_value_lookup_string (some message) "data"
        let node_id_value := fl_value_lookup_string (some message) "nodeId"
        let node_id : Int :=
          match node_id_value with
          | none => -1
          | some v =>
            if fl_value_get_type v = .FL_VALUE_TYPE_INT then fl_value_get_int v else -1
        if type = "announce" then handle_announce data
        else if type = "tap" then handle_tap node_id
        else if type = "longPress" then handle_long_press node_id
        else if type = "tooltip" then handle_tooltip data
        else (none, [.g_debug "Got unknown accessibility message: %s" [.str type]])

/-! ## Semantics nodes -/

/-- The constants of the embedder API (`embedder.h`) that the file uses.  The
header is not part of the file under study, so the numeric values are taken as
parameters; the field names are the names of the C constants. -/
structure Embedder where
  kFlutterSemanticsCustomActionIdBatchEnd : Int
  kFlutterSemanticsFlagHasCheckedState : Nat
  kFlutterSemanticsFlagIsChecked : Nat
  kFlutterSemanticsFlagIsSelected : Nat
  kFlutterSemanticsFlagIsButton : Nat
  kFlutterSemanticsFlagIsTextField : Nat
  kFlutterSemanticsFlagIsFocused : Nat
  kFlutterSemanticsFlagHasEnabledState : Nat
  kFlutterSemanticsFlagIsEnabled : Nat
  kFlutterSemanticsFlagIsInMutuallyExclusiveGroup : Nat
  kFlutterSemanticsFlagIsHeader : Nat
  kFlutterSemanticsFlagIsObscured : Nat
  kFlutterSemanticsFlagScopesRoute : Nat
  kFlutterSemanticsFlagNamesRoute : Nat
  kFlutterSemanticsFlagIsHidden : Nat
  kFlutterSemanticsFlagIsImage : Nat
  kFlutterSemanticsFlagIsLiveRegion : Nat
  kFlutterSemanticsFlagHasToggledState : Nat
  kFlutterSemanticsFlagIsToggled : Nat
  kFlutterSemanticsFlagHasImplicitScrolling : Nat
  kFlutterSemanticsFlagIsReadOnly : Nat
  kFlutterSemanticsFlagIsFocusable : Nat
  kFlutterSemanticsFlagIsLink : Nat
  kFlutterSemanticsActionTap : Nat
  kFlutterSemanticsActionLongPress : Nat
  kFlutterSemanticsActionScrollLeft : Nat
  kFlutterSemanticsActionScrollRight : Nat
  kFlutterSemanticsActionScrollUp : Nat
  kFlutterSemanticsActionScrollDown : Nat
  kFlutterSemanticsActionIncrease : Nat
  kFlutterSemanticsActionDecrease : Nat
  kFlutterSemanticsActionShowOnScreen : Nat
  kFlutterSemanticsActionMoveCursorForwardByCharacter : Nat
  kFlutterSemanticsActionMoveCursorBackwardByCharacter : Nat
  kFlutterSemanticsActionSetSelection : Nat
  kFlutterSemanticsActionCopy : Nat
  kFlutterSemanticsActionCut : Nat
  kFlutterSemanticsActionPaste : Nat
  kFlutterSemanticsActionDidGainAccessibilityFocus : Nat
  kFlutterSemanticsActionDidLoseAccessibilityFocus : Nat
  kFlutterSemanticsActionCustomAction : Nat
  kFlutterSemanticsActionDismiss : Nat
  kFlutterSemanticsActionMoveCursorForwardByWord : Nat
  kFlutterSemanticsActionMoveCursorBackwardByWord : Nat
  kFlutterTextDirectionUnknown : Int
  kFlutterTextDirectionRTL : Int
  kFlutterTextDirectionLTR : Int

/-- A concrete assignment of the constants, following the embedder API header
(every flag and action is one bit, bit 19 of the flags is unassigned, the
batch-end identifier is `-1`); it instantiates the parametric results. -/
def embedder_h : Embedder where
  kFlutterSemanticsCustomActionIdBatchEnd := -1
  kFlutterSemanticsFlagHasCheckedState := 2 ^ 0
  kFlutterSemanticsFlagIsChecked := 2 ^ 1
  kFlutterSemanticsFlagIsSelected := 2 ^ 2
  kFlutterSemanticsFlagIsButton := 2 ^ 3
  kFlutterSemanticsFlagIsTextField := 2 ^ 4
  kFlutterSemanticsFlagIsFocused := 2 ^ 5
  kFlutterSemanticsFlagHasEnabledState := 2 ^ 6
  kFlutterSemanticsFlagIsEnabled := 2 ^ 7
  kFlutterSemanticsFlagIsInMutuallyExclusiveGroup := 2 ^ 8
  kFlutterSemanticsFlagIsHeader := 2 ^ 9
  kFlutterSemanticsFlagIsObscured := 2 ^ 10
  kFlutterSemanticsFlagScopesRoute := 2 ^ 11
  kFlutterSemanticsFlagNamesRoute := 2 ^ 12
  kFlutterSemanticsFlagIsHidden := 2 ^ 13
  kFlutterSemanticsFlagIsImage := 2 ^ 14
  kFlutterSemanticsFlagIsLiveRegion := 2 ^ 15
  kFlutterSemanticsFlagHasToggledState := 2 ^ 16
  kFlutterSemanticsFlagIsToggled := 2 ^ 17
  kFlutterSemanticsFlagHasImplicitScrolling := 2 ^ 18
  kFlutterSemanticsFlagIsReadOnly := 2 ^ 20
  kFlutterSemanticsFlagIsFocusable := 2 ^ 21
  kFlutterSemanticsFlagIsLink := 2 ^ 22
  kFlutterSemanticsActionTap := 2 ^ 0
  kFlutterSemanticsActionLongPress := 2 ^ 1
  kFlutterSemanticsActionScrollLeft := 2 ^ 2
  kFlutterSemanticsActionScrollRight := 2 ^ 3
  kFlutterSemanticsActionScrollUp := 2 ^ 4
  kFlutterSemanticsActionScrollDown := 2 ^ 5
  kFlutterSemanticsActionIncrease := 2 ^ 6
  kFlutterSemanticsActionDecrease := 2 ^ 7
  kFlutterSemanticsActionShowOnScreen := 2 ^ 8
  kFlutterSemanticsActionMoveCursorForwardByCharacter := 2 ^ 9
  kFlutterSemanticsActionMoveCursorBackwardByCharacter := 2 ^ 10
  kFlutterSemanticsActionSetSelection := 2 ^ 11
  kFlutterSemanticsActionCopy := 2 ^ 12
  kFlutterSemanticsActionCut := 2 ^ 13
  kFlutterSemanticsActionPaste := 2 ^ 14
  kFlutterSemanticsActionDidGainAccessibilityFocus := 2 ^ 15
  kFlutterSemanticsActionDidLoseAccessibilityFocus := 2 ^ 16
  kFlutterSemanticsActionCustomAction := 2 ^ 17
  kFlutterSemanticsActionDismiss := 2 ^ 18
  kFlutterSemanticsActionMoveCursorForwardByWord := 2 ^ 19
  kFlutterSemanticsActionMoveCursorBackwardByWord := 2 ^ 20
  kFlutterTextDirectionUnknown := 0
  kFlutterTextDirectionRTL := 1
  kFlutterTextDirectionLTR := 2

/-- The flag tests of lines 181-224 in program order: the constant tested and
the text printed when the test succeeds. -/
def flag_table (E : Embedder) : List (Nat × String) :=
  [(E.kFlutterSemanticsFlagHasCheckedState, " HasCheckedState"),
   (E.kFlutterSemanticsFlagIsChecked, " IsChecked"),
   (E.kFlutterSemanticsFlagIsSelected, " IsSelected"),
   (E.kFlutterSemanticsFlagIsButton, " IsButton"),
   (E.kFlutterSemanticsFlagIsTextField, " IsTextField"),
   (E.kFlutterSemanticsFlagIsFocused, " IsFocused"),
   (E.kFlutterSemanticsFlagHasEnabledState, " HasEnabledState"),
   (E.kFlutterSemanticsFlagIsEnabled, " IsEnabled"),
   (E.kFlutterSemanticsFlagIsInMutuallyExclusiveGroup, " IsInMutuallyExclusiveGroup"),
   (E.kFlutterSemanticsFlagIsHeader, " IsHeader"),
   (E.kFlutterSemanticsFlagIsObscured, " IsObscured"),
   (E.kFlutterSemanticsFlagScopesRoute, " ScopesRoute"),
   (E.kFlutterSemanticsFlagNamesRoute, " NamesRoute"),
   (E.kFlutterSemanticsFlagIsHidden, " IsHidden"),
   (E.kFlutterSemanticsFlagIsImage, " IsImage"),
   (E.kFlutterSemanticsFlagIsLiveRegion, " IsLiveRegion"),
   (E.kFlutterSemanticsFlagHasToggledState, " HasToggledState"),
   (E.kFlutterSemanticsFlagIsToggled, " IsToggled"),
   (E.kFlutterSemanticsFlagHasImplicitScrolling, " HasImplicitScrolling"),
   (E.kFlutterSemanticsFlagIsReadOnly, " IsReadOnly"),
   (E.kFlutterSemanticsFlagIsFocusable, " IsFocusable"),
   (E.kFlutterSemanticsFlagIsLink, " IsLink")]

/-- The action tests of lines 232-275 in program order: the constant tested
and the text printed when the test succeeds. -/
def action_table (E : Embedder) : List (Nat × String) :=
  [(E.kFlutterSemanticsActionTap, " Tap"),
   (E.kFlutterSemanticsActionLongPress, " LongPress"),
   (E.kFlutterSemanticsActionScrollLeft, " ScrollLeft"),
   (E.kFlutterSemanticsActionScrollRight, " ScrollRight"),
   (E.kFlutterSemanticsActionScrollUp, " ScrollUp"),
   (E.kFlutterSemanticsActionScrollDown, " ScrollDown"),
   (E.kFlutterSemanticsActionIncrease, " Increase"),
   (E.kFlutterSemanticsActionDecrease, " Decrease"),
   (E.kFlutterSemanticsActionShowOnScreen, " ShowOnScreen"),
   (E.kFlutterSemanticsActionMoveCursorForwardByCharacter, " MoveCursorForwardByCharacter"),
   (E.kFlutterSemanticsActionMoveCursorBackwardByCharacter, " MoveCursorBackwardByCharacter"),
   (E.kFlutterSemanticsActionSetSelection, " SetSelection"),
   (E.kFlutterSemanticsActionCopy, " Copy"),
   (E.kFlutterSemanticsActionCut, " Cut"),
   (E.kFlutterSemanticsActionPaste, " Paste"),
   (E.kFlutterSemanticsActionDidGainAccessibilityFocus, " DidGainAccessibilityFocus"),
   (E.kFlutterSemanticsActionDidLoseAccessibilityFocus, " DidLoseAccessibilityFocus"),
   (E.kFlutterSemanticsActionCustomAction, " CustomAction"),
   (E.kFlutterSemanticsActionDismiss, " Dismiss"),
   (E.kFlutterSemanticsActionMoveCursorForwardByWord, " MoveCursorForwardByWord"),
   (E.kFlutterSemanticsActionMoveCursorBackwardByWord, " MoveCursorBackwardByWord")]

/-- The C struct `FlutterRect`. -/
structure FlutterRect where
  left : Double
  top : Double
  right : Double
  bottom : Double
  deriving DecidableEq, Repr

/-- The C struct `FlutterTransformation`. -/
structure FlutterTransformation where
  scaleX : Double
  skewX : Double
  transX : Double
  skewY : Double
  scaleY : Double
  transY : Double
  pers0 : Double
  pers1 : Double
  pers2 : Double
  deriving DecidableEq, Repr

/-- The C struct `FlutterSemanticsNode`, restricted to the fields the file
reads.  `id` and the counts and offsets are `int32_t`, `platform_view_id` is
`int64_t`, `flags` and `actions` are the bit patterns of the two enumerations,
the strings are C strings and the three arrays are given by their elements. -/
structure FlutterSemanticsNode where
  id : Int
  flags : Nat
  actions : Nat
  text_selection_base : Int
  text_selection_extent : Int
  scroll_child_count : Int
  scroll_index : Int
  scroll_position : Double
  scroll_extent_max : Double
  scroll_extent_min : Double
  elevation : Double
  thickness : Double
  label : String
  hint : String
  value : String
  increased_value : String
  decreased_value : String
  text_direction : Int
  rect : FlutterRect
  transform : FlutterTransformation
  child_count : Nat
  children_in_traversal_order : List Int
  children_in_hit_test_order : List Int
  custom_accessibility_actions_count : Nat
  custom_accessibility_actions : List Int
  platform_view_id : Int
  deriving DecidableEq, Repr

/-- The C macro `isnan` on a binary64 value. -/
def isnan (x : Double) : Bool :=
  x.exponent = 2047 && x.mantissa ≠ 0

/-- The C comparison `x != 0` on a binary64 value: false exactly on the two
zeros. -/
def Double.ne_zero (x : Double) : Bool :=
  !(x.exponent = 0 && x.mantissa = 0)

/-- The C comparison `x != 1` on a binary64 value: false exactly on `1.0`. -/
def Double.ne_one (x : Double) : Bool :=
  !(x.sign = false && x.exponent = 1023 && x.mantissa = 0)

/-- The C function `has_flag` (lines 150-157): the returned `gboolean` and the
value left in `*flags`. -/
def has_flag (flags flag : Nat) : Bool × Nat :=
  if flags &&& flag = 0 then (false, flags)
  else (true, flags ^^^ flag)

/-- The C function `has_action` (lines 159-166): the returned `gboolean` and
the value left in `*actions`. -/
def has_action (actions action : Nat) : Bool × Nat :=
  if actions &&& action = 0 then (false, actions)
  else (true, actions ^^^ action)

/-- A run of statements `if (has (&mask, constant)) g_printerr (text);`, one
per table entry, on the working copy `mask`: the log and the final working
copy. -/
def test_bits (has : Nat → Nat → Bool × Nat) : List (Nat × String) → Nat → List Log × Nat
  | [], mask => ([], mask)
  | (constant, text) :: rest, mask =>
    let r := has mask constant
    let t := test_bits has rest r.2
    ((if r.1 then [Log.g_printerr text []] else []) ++ t.1, t.2)

/-- Lines 178-228: the `flags` block. -/
def print_flags (E : Embedder) (node_flags : Nat) : List Log :=
  if node_flags ≠ 0 then
    let r := test_bits has_flag (flag_table E) node_flags
    let flags := r.2
    [Log.g_printerr "  flags:" []] ++ r.1
      ++ (if flags ≠ 0 then [Log.g_printerr " 0x%x" [.uint flags]] else [])
      ++ [Log.g_printerr "\n" []]
  else []

/-- Lines 229-279: the `actions` block. -/
def print_actions (E : Embedder) (node_actions : Nat) : List Log :=
  if node_actions ≠ 0 then
    let r := test_bits has_action (action_table E) node_actions
    let actions := r.2
    [Log.g_printerr "  actions:" []] ++ r.1
      ++ (if actions ≠ 0 then [Log.g_printerr " 0x%x" [.uint actions]] else [])
      ++ [Log.g_printerr "\n" []]
  else []

/-- Lines 280-287: the four `int32_t` fields with a sentinel. -/
def print_int_fields (node : FlutterSemanticsNode) : List Log :=
  (if node.text_selection_base ≠ -1 then
      [Log.g_printerr "  text_selection_base: %d\n" [.int node.text_selection_base]] else [])
    ++ (if node.text_selection_extent ≠ -1 then
      [Log.g_printerr "  text_selection_extent: %d\n" [.int node.text_selection_extent]] else [])
    ++ (if node.scroll_child_count ≠ 0 then
      [Log.g_printerr "  scroll_child_count: %d\n" [.int node.scroll_child_count]] else [])
    ++ (if node.scroll_index ≠ 0 then
      [Log.g_printerr "  scroll_index: %d\n" [.int node.scroll_index]] else [])

/-- Lines 288-297: the five `double` fields with a sentinel. -/
def print_double_fields (node : FlutterSemanticsNode) : List Log :=
  (if !isnan node.scroll_position then
      [Log.g_printerr "  scroll_position: %g\n" [.dbl node.scroll_position]] else [])
    ++ (if !isnan node.scroll_extent_max then
      [Log.g_printerr "  scroll_extent_max: %g\n" [.dbl node.scroll_extent_max]] else [])
    ++ (if !isnan node.scroll_extent_min then
      [Log.g_printerr "  scroll_extent_min: %g\n" [.dbl node.scroll_extent_min]] else [])
    ++ (if node.elevation.ne_zero then
      [Log.g_printerr "  elevation: %g\n" [.dbl node.elevation]] else [])
    ++ (if node.thickness.ne_zero then
      [Log.g_printerr "  thickness: %g\n" [.dbl node.thickness]] else [])

/-- Lines 298-307: the five strings, printed when not empty. -/
def print_strings (node : FlutterSemanticsNode) : List Log :=
  (if node.label ≠ "" then [Log.g_printerr "  label: %s\n" [.str node.label]] else [])
    ++ (if node.hint ≠ "" then [Log.g_printerr "  hint: %s\n" [.str node.hint]] else [])
    ++ (if node.value ≠ "" then [Log.g_printerr "  value: %s\n" [.str node.value]] else [])
    ++ (if node.increased_value ≠ "" then
      [Log.g_printerr "  increased_value: %s\n" [.str node.increased_value]] else [])
    ++ (if node.decreased_value ≠ "" then
      [Log.g_printerr "  decreased_value: %s\n" [.str node.decreased_value]] else [])

/-- Lines 308-322: the text direction; the `switch` is read as the chain of
its cases. -/
def print_text_direction (E : Embedder) (node : FlutterSemanticsNode) : List Log :=
  if node.text_direction ≠ E.kFlutterTextDirectionUnknown then
    [Log.g_printerr "  text_direction: " []]
      ++ (if node.text_direction = E.kFlutterTextDirectionRTL then [Log.g_printerr "RTL" []]
          else if node.text_direction = E.kFlutterTextDirectionLTR then
            [Log.g_printerr "LTR" []]
          else [Log.g_printerr "%d\n" [.int node.text_direction]])
      ++ [Log.g_printerr "\n" []]
  else []

/-- Line 323: the rectangle, always printed. -/
def print_rect (node : FlutterSemanticsNode) : List Log :=
  [Log.g_printerr "  rect: %g %g %g %g (lrtb)\n"
    [.dbl node.rect.left, .dbl node.rect.right, .dbl node.rect.top, .dbl node.rect.bottom]]

/-- Lines 325-344: the transformation. -/
def print_transform (node : FlutterSemanticsNode) : List Log :=
  let t := node.transform
  if t.transX.ne_zero || t.transY.ne_zero || t.scaleX.ne_one || t.scaleY.ne_one ||
      t.skewX.ne_zero || t.skewY.ne_zero || t.pers0.ne_zero || t.pers1.ne_zero ||
      t.pers2.ne_one then
    [Log.g_printerr "  transform:" []]
      ++ (if t.transX.ne_zero || t.transY.ne_zero then
        [Log.g_printerr " translate(%g, %g)" [.dbl t.transX, .dbl t.transY]] else [])
      ++ (if t.scaleX.ne_one || t.scaleY.ne_one then
        [Log.g_printerr " scale(%g, %g)" [.dbl t.scaleX, .dbl t.scaleY]] else [])
      ++ (if t.skewX.ne_zero || t.skewY.ne_zero then
        [Log.g_printerr " skew(%g, %g)" [.dbl t.skewX, .dbl t.skewY]] else [])
      ++ (if t.pers0.ne_zero || t.pers1.ne_zero || t.pers2.ne_one then
        [Log.g_printerr " perspective(%g, %g, %g)" [.dbl t.pers0, .dbl t.pers1, .dbl t.pers2]]
        else [])
      ++ [Log.g_printerr "\n" []]
  else []

/-- A loop `for (i = 0; i < count; i++) g_printerr (" %d", array[i]);`.  The
record is assumed well formed, so `array` has at least `count` elements; a
read past the end is given the value `0`. -/
def print_ids (count : Nat) (array : List Int) : List Log :=
  (List.range count).map fun i => Log.g_printerr " %d" [.int (array.getD i 0)]

/-- Lines 345-354: the two orders of the children. -/
def print_children (node : FlutterSemanticsNode) : List Log :=
  if node.child_count > 0 then
    [Log.g_printerr "  children_in_traversal_order:" []]
      ++ print_ids node.child_count node.children_in_traversal_order
      ++ [Log.g_printerr "\n" []]
      ++ [Log.g_printerr "  children_in_hit_test_order:" []]
      ++ print_ids node.child_count node.children_in_hit_test_order
      ++ [Log.g_printerr "\n" []]
  else []

/-- Lines 355-360: the custom actions. -/
def print_custom_actions (node : FlutterSemanticsNode) : List Log :=
  if node.custom_accessibility_actions_count > 0 then
    [Log.g_printerr "  custom_accessibility_actions:" []]
      ++ print_ids node.custom_accessibility_actions_count node.custom_accessibility_actions
      ++ [Log.g_printerr "\n" []]
  else []

/-- Lines 361-363: the platform view. -/
def print_platform_view_id (node : FlutterSemanticsNode) : List Log :=
  if node.platform_view_id ≠ -1 then
    [Log.g_printerr ("  platform_view_id: %" ++ G_GINT64_FORMAT ++ "\n")
      [.int node.platform_view_id]]
  else []

/-- The C function `fl_accessibility_plugin_handle_update_semantics_node`
(lines 168-364): the log it writes.  The `plugin` argument is not used by the
C code and dropped. -/
def fl_accessibility_plugin_handle_update_semantics_node (E : Embedder)
    (node : FlutterSemanticsNode) : List Log :=
  if node.id = E.kFlutterSemanticsCustomActionIdBatchEnd then
    [Log.g_printerr "Semantics Nodes End\n" []]
  else
    [Log.g_printerr "Semantics Node\n" [], Log.g_printerr "  id: %d\n" [.int node.id]]
      ++ print_flags E node.flags
      ++ print_actions E node.actions
      ++ print_int_fields node
      ++ print_double_fields node
      ++ print_strings node
      ++ print_text_direction E node
      ++ print_rect node
      ++ print_transform node
      ++ print_children node
      ++ print_custom_actions node
      ++ print_platform_view_id node

/-! ## Vocabulary of the results on the node printer -/

/-- The format string of a log entry. -/
def Log.fmt : Log → String
  | .g_printerr fmt _ => fmt
  | .g_warning fmt _ => fmt
  | .g_debug fmt _ => fmt

/-- A constant with exactly one bit set. -/
def SingleBit (c : Nat) : Prop := ∃ k, c = 2 ^ k

/-- The constants of a table are distinct single bits. -/
def DistinctSingleBits (table : List (Nat × String)) : Prop :=
  (∀ e ∈ table, SingleBit e.1) ∧ (table.map Prod.fst).Nodup

/-- The bitwise OR of all constants of a table: the mask of the known bits. -/
def known_mask (table : List (Nat × String)) : Nat :=
  (table.map Prod.fst).foldr (fun c acc => c ||| acc) 0

/-- The entries of a table whose text is printed (without arguments) in a
log. -/
def reported (table : List (Nat × String)) (log : List Log) : List (Nat × String) :=
  table.filter fun e => decide (Log.g_printerr e.2 [] ∈ log)

/-- The bitwise OR of the constants whose text is printed in a log. -/
def reported_mask (table : List (Nat × String)) (log : List Log) : Nat :=
  known_mask (reported table log)

/-- The common shape of the `flags` block and of the `actions` block, with the
header text and the table left open. -/
def print_bits (header : String) (table : List (Nat × String)) (mask : Nat) : List Log :=
  if mask ≠ 0 then
    let r := test_bits has_flag table mask
    [Log.g_printerr header []] ++ r.1
      ++ (if r.2 ≠ 0 then [Log.g_printerr " 0x%x" [.uint r.2]] else [])
      ++ [Log.g_printerr "\n" []]
  else []

/-- The texts of the `flags` block, in program order. -/
def flag_names : List String :=
  [" HasCheckedState", " IsChecked", " IsSelected", " IsButton", " IsTextField", " IsFocused",
    " HasEnabledState", " IsEnabled", " IsInMutuallyExclusiveGroup", " IsHeader",
    " IsObscured", " ScopesRoute", " NamesRoute", " IsHidden", " IsImage", " IsLiveRegion",
    " HasToggledState", " IsToggled", " HasImplicitScrolling", " IsReadOnly", " IsFocusable",
    " IsLink"]

/-- The texts of the `actions` block, in program order. -/
def action_names : List String :=
  [" Tap", " LongPress", " ScrollLeft", " ScrollRight", " ScrollUp", " ScrollDown",
    " Increase", " Decrease", " ShowOnScreen", " MoveCursorForwardByCharacter",
    " MoveCursorBackwardByCharacter", " SetSelection", " Copy", " Cut", " Paste",
    " DidGainAccessibilityFocus", " DidLoseAccessibilityFocus", " CustomAction", " Dismiss",
    " MoveCursorForwardByWord", " MoveCursorBackwardByWord"]

/-- The binary64 value `0.0`. -/
def Double.zero : Double := ⟨false, 0, 0⟩

/-- The binary64 value `1.0`. -/
def Double.one : Double := ⟨false, 1023, 0⟩

/-- A quiet NaN. -/
def Double.nan : Double := ⟨false, 2047, 2 ^ 51⟩

/-- A node record used to run the printer: identifier 7, flags `0x80000a`,
actions `3`, the identity transformation, no children, and sentinel fields next
to their sentinels (`text_selection_extent = -2`, `platform_view_id = 0`). -/
def sample_node : FlutterSemanticsNode where
  id := 7
  flags := 0x80000a
  actions := 3
  text_selection_base := -1
  text_selection_extent := -2
  scroll_child_count := 0
  scroll_index := 5
  scroll_position := Double.nan
  scroll_extent_max := Double.nan
  scroll_extent_min := Double.nan
  elevation := Double.zero
  thickness := Double.zero
  label := "OK"
  hint := ""
  value := ""
  increased_value := ""
  decreased_value := ""
  text_direction := 0
  rect := ⟨Double.zero, Double.zero, Double.one, Double.one⟩
  transform :=
    ⟨Double.one, Double.zero, Double.zero, Double.zero, Double.one, Double.zero, Double.zero,
      Double.zero, Double.one⟩
  child_count := 0
  children_in_traversal_order := []
  children_in_hit_test_order := []
  custom_accessibility_actions_count := 0
  custom_accessibility_actions := []
  platform_view_id := 0

/-! ## The plugin object and the channel callback -/

/-- The C struct `_FlAccessibilityPlugin` (lines 9-16).  `channel` is the
handle of the message channel; `semantics_nodes_by_id` is the hash table of
line 15, given by its entries (key, node). -/
structure FlAccessibilityPlugin where
  channel : Nat
  semantics_nodes_by_id : List (Int × FlutterSemanticsNode)
  deriving DecidableEq, Repr

/-- The C function `fl_accessibility_plugin_init` (lines 129-132): the table
is created empty. -/
def fl_accessibility_plugin_init (self : FlAccessibilityPlugin) : FlAccessibilityPlugin :=
  { self with semantics_nodes_by_id := [] }

/-- The C function `fl_accessibility_plugin_new` (lines 134-148): the object is
created (which runs `fl_accessibility_plugin_init`) and then given its
channel.  `channel` stands for the handle `fl_basic_message_channel_new`
returns. -/
def fl_accessibility_plugin_new (channel : Nat) : FlAccessibilityPlugin :=
  { fl_accessibility_plugin_init ⟨0, []⟩ with channel := channel }

/-- Modelled from the spec: the file never reads the table, so the lookup
`get(id)` of the registry is taken from the spec, "returns the current snapshot
or not found": the node stored under `id`, if any. -/
def registry_get (registry : List (Int × FlutterSemanticsNode)) (id : Int) :
    Option FlutterSemanticsNode :=
  (registry.find? fun entry => entry.1 = id).map Prod.snd

/-- The C function `fl_accessibility_plugin_handle_update_semantics_node`
(lines 168-364) with the plugin object made explicit: the object after the
call and the log.  The body never mentions `plugin`, so the object comes back
as it was passed. -/
def update_semantics_node (E : Embedder) (plugin : FlAccessibilityPlugin)
    (node : FlutterSemanticsNode) : FlAccessibilityPlugin × List Log :=
  (plugin, fl_accessibility_plugin_handle_update_semantics_node E node)

/-- A batch of update calls, one after the other: the object after the last
call. -/
def update_semantics_nodes (E : Embedder) (plugin : FlAccessibilityPlugin)
    (nodes : List FlutterSemanticsNode) : FlAccessibilityPlugin :=
  nodes.foldl (fun p node => (update_semantics_node E p node).1) plugin

/-- What `message_cb` does to the outside: a diagnostic call, or one call of
`fl_basic_message_channel_respond` with its channel, response handle and
response (`none` is `nullptr`). -/
inductive Effect
  | log (entry : Log)
  | respond (channel : Nat) (response_handle : Nat) (response : Option FlValue)

/-- Whether an effect is a call of `fl_basic_message_channel_respond`. -/
def Effect.is_respond : Effect → Bool
  | .respond _ _ _ => true
  | .log _ => false

/-- The C function `message_cb` (lines 102-114): the plugin object after the
call and what the call did, in program order.  The transport is not part of the
file, so the outcome of `fl_basic_message_channel_respond` is the parameter
`respond`: `none` when the call returns TRUE, `some text` when it returns FALSE
with `error->message` being `text`. -/
def message_cb (respond : Nat → Nat → Option FlValue → Option String) (channel : Nat)
    (message : FlValue) (response_handle : Nat) (self : FlAccessibilityPlugin) :
    FlAccessibilityPlugin × List Effect :=
  let r := handle_message message
  let response := r.1
  (self,
    r.2.map Effect.log ++ [Effect.respond channel response_handle response]
      ++ (match respond channel response_handle response with
          | none => []
          | some error_message =>
            [Effect.log (.g_warning "Failed to send message response: %s"
              [.str error_message])]))

/-! ## The pure decoder of the design notes -/

/-- The decoder as the design notes word it: every known bit is tested against
the unmodified input mask, the recognised texts are collected in table order,
and the residual is the input mask AND NOT the mask of the known bits. -/
def pure_decode (table : List (Nat × String)) (mask : Nat) : List String × Nat :=
  ((table.filter fun e => mask &&& e.1 ≠ 0).map Prod.snd, Nat.ldiff mask (known_mask table))

/-- The binary64 value `+infinity`. -/
def Double.inf : Double := ⟨false, 2047, 0⟩

/-- The binary64 value `-2.5`. -/
def Double.neg_two_and_a_half : Double := ⟨true, 1024, 2 ^ 50⟩

/-- The binary64 value `2.0`. -/
def Double.two : Double := ⟨false, 1024, 0⟩

/-- The sample record with `scroll_position = 0.0`, `scroll_extent_min =
+infinity` and `elevation = -2.5`. -/
def sample_node_doubles : FlutterSemanticsNode :=
  { sample_node with
    scroll_position := Double.zero
    scroll_extent_min := Double.inf
    elevation := Double.neg_two_and_a_half }

/-- The sample record with the transformation "scale by 2 along x". -/
def sample_node_scaled : FlutterSemanticsNode :=
  { sample_node with
    transform :=
      ⟨Double.two, Double.zero, Double.zero, Double.zero, Double.one, Double.zero,
        Double.zero, Double.zero, Double.one⟩ }

/-- The value `handle_message` computes for `node_id` (lines 81-85): the
integer stored under `nodeId`, and `-1` when there is none. -/
def message_node_id (message : FlValue) : Int :=
  match fl_value_lookup_string (some message) "nodeId" with
  | none => -1
  | some v => if fl_value_get_type v = .FL_VALUE_TYPE_INT then fl_value_get_int v else -1

/-! ## The message router: results -/

theorem lookup_string_map (entries : List (FlValue × FlValue)) (key : String) :
    fl_value_lookup_string (some (.map entries)) key = lookup_entries key entries := rfl

theorem type_string_iff (v : FlValue) :
    fl_value_get_type v = .FL_VALUE_TYPE_STRING ↔ ∃ s, v = .string s := by
  cases v <;> simp [fl_value_get_type]

theorem type_int_iff (v : FlValue) :
    fl_value_get_type v = .FL_VALUE_TYPE_INT ↔ ∃ n, v = .int n := by
  cases v <;> simp [fl_value_get_type]

theorem type_map_iff (v : FlValue) :
    fl_value_get_type v = .FL_VALUE_TYPE_MAP ↔ ∃ entries, v = .map entries := by
  cases v <;> simp [fl_value_get_type]

theorem handle_announce_fst (data : Option FlValue) : (handle_announce data).1 = none := by
  unfold handle_announce
  split
  · rfl
  · split <;> rfl

theorem handle_tooltip_fst (data : Option FlValue) : (handle_tooltip data).1 = none := by
  unfold handle_tooltip
  split
  · rfl
  · split <;> rfl

theorem handle_message_fst_none (message : FlValue) : (handle_message message).1 = none := by
  unfold handle_message
  split
  · rfl
  · split
    · rfl
    · split
      · rfl
      · simp only []
        split
        · exact handle_announce_fst _
        · split
          · rfl
          · split
            · rfl
            · split
              · exact handle_tooltip_fst _
              · rfl

/-- What `handle_message` does once the `type` entry is known to be the string
`t`: the dispatch of lines 87-98. -/
theorem handle_message_of_type (entries : List (FlValue × FlValue)) (t : String)
    (htype : fl_value_lookup_string (some (.map entries)) "type" = some (.string t)) :
    handle_message (.map entries) =
      if t = "announce" then
        handle_announce (fl_value_lookup_string (some (.map entries)) "data")
      else if t = "tap" then
        handle_tap
          (match fl_value_lookup_string (some (.map entries)) "nodeId" with
            | none => -1
            | some v =>
              if fl_value_get_type v = .FL_VALUE_TYPE_INT then fl_value_get_int v else -1)
      else if t = "longPress" then
        handle_long_press
          (match fl_value_lookup_string (some (.map entries)) "nodeId" with
            | none => -1
            | some v =>
              if fl_value_get_type v = .FL_VALUE_TYPE_INT then fl_value_get_int v else -1)
      else if t = "tooltip" then
        handle_tooltip (fl_value_lookup_string (some (.map entries)) "data")
      else (none, [.g_debug "Got unknown accessibility message: %s" [.str t]]) := by
  unfold handle_message
  simp [fl_value_get_type, htype, fl_value_get_string]

/-- C1: whatever the inbound message is (not a map, a map without a string
`type`, any `type` string, any `data` or `nodeId`), `handle_message` returns the
null response: the function is total and its returned value is `nullptr`. -/
theorem handle_message_returns_null (message : FlValue) :
    (handle_message message).1 = none := by
  unfold handle_message
  split
  · rfl
  · split
    · rfl
    · split
      · rfl
      · simp only []
        split
        · exact handle_announce_fst _
        · split
          · rfl
          · split
            · rfl
            · split
              · exact handle_tooltip_fst _
              · rfl

/-- C2: on a map whose `type` is the string "tap", `handle_message` prints the
tap line with the integer stored under `nodeId` when there is one, and with
`-1` when `nodeId` is absent or holds a value of any other type. -/
theorem handle_message_tap (entries : List (FlValue × FlValue))
    (htype : fl_value_lookup_string (some (.map entries)) "type" = some (.string "tap")) :
    (∀ n : Int, fl_value_lookup_string (some (.map entries)) "nodeId" = some (.int n) →
      handle_message (.map entries) =
        (none, [.g_printerr ("TAP '%" ++ G_GINT64_FORMAT ++ "'\n") [.int n]])) ∧
    (fl_value_lookup_string (some (.map entries)) "nodeId" = none →
      handle_message (.map entries) =
        (none, [.g_printerr ("TAP '%" ++ G_GINT64_FORMAT ++ "'\n") [.int (-1)]])) ∧
    (∀ v : FlValue, fl_value_lookup_string (some (.map entries)) "nodeId" = some v →
      fl_value_get_type v ≠ .FL_VALUE_TYPE_INT →
      handle_message (.map entries) =
        (none, [.g_printerr ("TAP '%" ++ G_GINT64_FORMAT ++ "'\n") [.int (-1)]])) := by
  rw [handle_message_of_type entries "tap" htype]
  refine ⟨?_, ?_, ?_⟩
  · intro n hn
    simp [hn, handle_tap, fl_value_get_type, fl_value_get_int]
  · intro hn
    simp [hn, handle_tap]
  · intro v hv hty
    simp [hv, hty, handle_tap]

theorem handle_message_tap_witness :
    handle_message (.map [(.string "type", .string "tap"), (.string "nodeId", .int 42)]) =
        (none, [.g_printerr ("TAP '%" ++ G_GINT64_FORMAT ++ "'\n") [.int 42]]) ∧
      handle_message (.map [(.string "type", .string "tap")]) =
        (none, [.g_printerr ("TAP '%" ++ G_GINT64_FORMAT ++ "'\n") [.int (-1)]]) ∧
      handle_message (.map [(.string "nodeId", .string "42"), (.string "type", .string "tap")]) =
        (none, [.g_printerr ("TAP '%" ++ G_GINT64_FORMAT ++ "'\n") [.int (-1)]]) :=
  ⟨(handle_message_tap [(.string "type", .string "tap"), (.string "nodeId", .int 42)]
      (by rfl)).1 42 (by rfl),
    (handle_message_tap [(.string "type", .string "tap")] (by rfl)).2.1 (by rfl),
    (handle_message_tap [(.string "nodeId", .string "42"), (.string "type", .string "tap")]
      (by rfl)).2.2 (.string "42") (by rfl) (by decide)⟩

/-- C3: for every string `m`, the message `{"type": "announce", "data":
{"message": m}}` makes `handle_message` write exactly one log entry, the
announce line carrying `m`, and return the null response. -/
theorem handle_message_literal_announce (m : String) :
    handle_message
        (.map [(.string "type", .string "announce"),
          (.string "data", .map [(.string "message", .string m)])]) =
      (none, [.g_printerr "ANNOUNCE '%s'\n" [.str m]]) := by
  rw [handle_message_of_type _ "announce" (by rfl)]
  simp [handle_announce, fl_value_lookup_string, lookup_entries, fl_value_get_type,
    fl_value_get_string]

theorem handle_announce_string (data : Option FlValue) (m : String)
    (h : fl_value_lookup_string data "message" = some (.string m)) :
    handle_announce data = (none, [.g_printerr "ANNOUNCE '%s'\n" [.str m]]) := by
  simp [handle_announce, h, fl_value_get_type, fl_value_get_string]

theorem handle_tooltip_string (data : Option FlValue) (m : String)
    (h : fl_value_lookup_string data "message" = some (.string m)) :
    handle_tooltip data = (none, [.g_printerr "TOOLTIP '%s'\n" [.str m]]) := by
  simp [handle_tooltip, h, fl_value_get_type, fl_value_get_string]

theorem handle_announce_not_string (data : Option FlValue)
    (h : ∀ m, fl_value_lookup_string data "message" ≠ some (.string m)) :
    handle_announce data = (none, [.g_warning "Expected message string" []]) := by
  unfold handle_announce
  split
  · rfl
  · next v hv =>
    have hty : fl_value_get_type v ≠ .FL_VALUE_TYPE_STRING := by
      intro hs
      obtain ⟨s, rfl⟩ := (type_string_iff v).1 hs
      exact h s hv
    simp [hty]

theorem handle_tooltip_not_string (data : Option FlValue)
    (h : ∀ m, fl_value_lookup_string data "message" ≠ some (.string m)) :
    handle_tooltip data = (none, [.g_warning "Expected message string" []]) := by
  unfold handle_tooltip
  split
  · rfl
  · next v hv =>
    have hty : fl_value_get_type v ≠ .FL_VALUE_TYPE_STRING := by
      intro hs
      obtain ⟨s, rfl⟩ := (type_string_iff v).1 hs
      exact h s hv
    simp [hty]

theorem lookup_string_not_map (d : FlValue) (key : String)
    (h : fl_value_get_type d ≠ .FL_VALUE_TYPE_MAP) :
    fl_value_lookup_string (some d) key = none := by
  cases d <;> simp_all [fl_value_lookup_string, fl_value_get_type]

/-- C4: on a map whose `type` is "announce" or "tooltip", when `data` is
absent, is not a map, has no `message` entry or has a `message` that is not a
string, `handle_message` writes the warning and nothing else and returns the
null response; when `data.message` is the string `m` it writes the announce
(resp. tooltip) line with `m`; so an event line is written if and only if
`data.message` is a string. -/
theorem handle_message_announce_tooltip (entries : List (FlValue × FlValue)) (t : String)
    (ht : t = "announce" ∨ t = "tooltip")
    (htype : fl_value_lookup_string (some (.map entries)) "type" = some (.string t)) :
    ((fl_value_lookup_string (some (.map entries)) "data" = none ∨
        (∃ d, fl_value_lookup_string (some (.map entries)) "data" = some d ∧
          fl_value_get_type d ≠ .FL_VALUE_TYPE_MAP) ∨
        (∃ d, fl_value_lookup_string (some (.map entries)) "data" = some d ∧
          fl_value_lookup_string (some d) "message" = none) ∨
        (∃ d v, fl_value_lookup_string (some (.map entries)) "data" = some d ∧
          fl_value_lookup_string (some d) "message" = some v ∧
          fl_value_get_type v ≠ .FL_VALUE_TYPE_STRING)) →
      handle_message (.map entries) = (none, [.g_warning "Expected message string" []])) ∧
    (∀ m : String,
      fl_value_lookup_string (fl_value_lookup_string (some (.map entries)) "data") "message" =
        some (.string m) →
      handle_message (.map entries) =
        (none,
          [.g_printerr (if t = "announce" then "ANNOUNCE '%s'\n" else "TOOLTIP '%s'\n")
            [.str m]])) ∧
    ((∃ fmt args, Log.g_printerr fmt args ∈ (handle_message (.map entries)).2) ↔
      ∃ m : String,
        fl_value_lookup_string (fl_value_lookup_string (some (.map entries)) "data") "message" =
          some (.string m)) := by
  have hsucc : ∀ m : String,
      fl_value_lookup_string (fl_value_lookup_string (some (.map entries)) "data") "message" =
        some (.string m) →
      handle_message (.map entries) =
        (none,
          [.g_printerr (if t = "announce" then "ANNOUNCE '%s'\n" else "TOOLTIP '%s'\n")
            [.str m]]) := by
    intro m hm
    rw [handle_message_of_type entries t htype]
    rcases ht with rfl | rfl
    · simp [handle_announce_string _ m hm]
    · simp [handle_tooltip_string _ m hm]
  have hfail : (∀ m : String,
      fl_value_lookup_string (fl_value_lookup_string (some (.map entries)) "data") "message" ≠
        some (.string m)) →
      handle_message (.map entries) = (none, [.g_warning "Expected message string" []]) := by
    intro hm
    rw [handle_message_of_type entries t htype]
    rcases ht with rfl | rfl
    · simp [handle_announce_not_string _ hm]
    · simp [handle_tooltip_not_string _ hm]
  refine ⟨?_, hsucc, ?_⟩
  · intro hcases
    apply hfail
    intro m hm
    rcases hcases with h | ⟨d, hd, hty⟩ | ⟨d, hd, hnone⟩ | ⟨d, v, hd, hv, hty⟩
    · rw [h] at hm
      simp [fl_value_lookup_string] at hm
    · rw [hd, lookup_string_not_map d "message" hty] at hm
      simp at hm
    · rw [hd, hnone] at hm
      simp at hm
    · rw [hd, hv] at hm
      injection hm with hm
      subst hm
      simp [fl_value_get_type] at hty
  · constructor
    · rintro ⟨fmt, args, hmem⟩
      by_contra hno
      have hall : ∀ m : String,
          fl_value_lookup_string (fl_value_lookup_string (some (.map entries)) "data")
            "message" ≠ some (.string m) := fun m hm => hno ⟨m, hm⟩
      rw [hfail hall] at hmem
      simp at hmem
    · rintro ⟨m, hm⟩
      rw [hsucc m hm]
      exact ⟨_, _, List.mem_singleton.2 rfl⟩

theorem handle_message_announce_tooltip_witness :
    handle_message (.map [(.string "type", .string "tooltip"), (.string "data", .int 3)]) =
        (none, [.g_warning "Expected message string" []]) ∧
      handle_message
          (.map [(.string "type", .string "tooltip"),
            (.string "data", .map [(.string "message", .string "Save")])]) =
        (none,
          [.g_printerr (if "tooltip" = "announce" then "ANNOUNCE '%s'\n" else "TOOLTIP '%s'\n")
            [.str "Save"]]) :=
  ⟨(handle_message_announce_tooltip
      [(.string "type", .string "tooltip"), (.string "data", .int 3)] "tooltip"
      (Or.inr rfl) (by rfl)).1 (Or.inr (Or.inl ⟨.int 3, by rfl, by decide⟩)),
    (handle_message_announce_tooltip
      [(.string "type", .string "tooltip"),
        (.string "data", .map [(.string "message", .string "Save")])] "tooltip"
      (Or.inr rfl) (by rfl)).2.1 "Save" (by rfl)⟩

/-- C5: on a map whose `type` is a string `t` other than "announce", "tap",
"longPress" and "tooltip", `handle_message` writes exactly one log entry, the
debug line carrying `t` itself, and returns the null response, whatever else
the map contains. -/
theorem handle_message_unknown (entries : List (FlValue × FlValue)) (t : String)
    (htype : fl_value_lookup_string (some (.map entries)) "type" = some (.string t))
    (h1 : t ≠ "announce") (h2 : t ≠ "tap") (h3 : t ≠ "longPress") (h4 : t ≠ "tooltip") :
    handle_message (.map entries) =
      (none, [.g_debug "Got unknown accessibility message: %s" [.str t]]) := by
  rw [handle_message_of_type entries t htype]
  simp [h1, h2, h3, h4]

theorem handle_message_unknown_witness :
    handle_message
        (.map [(.string "type", .string "frobnicate"),
          (.string "data", .map [(.string "message", .string "Hello")]),
          (.string "nodeId", .int 42)]) =
      (none, [.g_debug "Got unknown accessibility message: %s" [.str "frobnicate"]]) :=
  handle_message_unknown
    [(.string "type", .string "frobnicate"),
      (.string "data", .map [(.string "message", .string "Hello")]),
      (.string "nodeId", .int 42)] "frobnicate" (by rfl)
    (by decide) (by decide) (by decide) (by decide)

/-- C6: a message that is not a map, and a map whose `type` entry is absent or
is not a string, makes `handle_message` write one warning and nothing else (no
event line) and return the null response; `data` and `nodeId` play no part. -/
theorem handle_message_malformed (message : FlValue) :
    (fl_value_get_type message ≠ .FL_VALUE_TYPE_MAP →
      handle_message message =
        (none, [.g_warning "Ignoring unknown flutter/accessibility message type" []])) ∧
    (fl_value_get_type message = .FL_VALUE_TYPE_MAP →
      (fl_value_lookup_string (some message) "type" = none ∨
        ∃ v, fl_value_lookup_string (some message) "type" = some v ∧
          fl_value_get_type v ≠ .FL_VALUE_TYPE_STRING) →
      handle_message message =
        (none,
          [.g_warning "Ignoring unknown flutter/accessibility message with unknown type"
            []])) := by
  constructor
  · intro h
    simp [handle_message, h]
  · intro hmap h
    rcases h with h | ⟨v, hv, hty⟩
    · simp [handle_message, hmap, h]
    · simp [handle_message, hmap, hv, hty]

theorem handle_message_malformed_witness :
    handle_message (.list [.string "type", .string "tap"]) =
        (none, [.g_warning "Ignoring unknown flutter/accessibility message type" []]) ∧
      handle_message (.map [(.string "nodeId", .int 42), (.string "type", .int 7)]) =
        (none,
          [.g_warning "Ignoring unknown flutter/accessibility message with unknown type"
            []]) :=
  ⟨(handle_message_malformed (.list [.string "type", .string "tap"])).1 (by decide),
    (handle_message_malformed (.map [(.string "nodeId", .int 42), (.string "type", .int 7)])).2
      (by rfl) (Or.inr ⟨.int 7, by rfl, by decide⟩)⟩

/-! ## The bit tests -/

theorem has_action_eq_has_flag : has_action = has_flag := rfl

theorem print_flags_eq (E : Embedder) (mask : Nat) :
    print_flags E mask = print_bits "  flags:" (flag_table E) mask := rfl

theorem print_actions_eq (E : Embedder) (mask : Nat) :
    print_actions E mask = print_bits "  actions:" (action_table E) mask := rfl

theorem and_two_pow_ne_zero (w k : Nat) : w &&& 2 ^ k ≠ 0 ↔ w.testBit k = true := by
  rw [Nat.and_two_pow]
  cases h : w.testBit k <;> simp [Nat.pos_iff_ne_zero.1 (Nat.two_pow_pos k)]

theorem has_flag_two_pow_fst (w k : Nat) : (has_flag w (2 ^ k)).1 = w.testBit k := by
  unfold has_flag
  cases h : w.testBit k
  · have : w &&& 2 ^ k = 0 := by
      by_contra hne
      rw [(and_two_pow_ne_zero w k).1 hne] at h
      cases h
    simp [this]
  · have : w &&& 2 ^ k ≠ 0 := (and_two_pow_ne_zero w k).2 h
    simp [this]

theorem has_flag_two_pow_snd (w k : Nat) : (has_flag w (2 ^ k)).2 = Nat.ldiff w (2 ^ k) := by
  apply Nat.eq_of_testBit_eq
  intro i
  rw [Nat.testBit_ldiff, Nat.testBit_two_pow]
  unfold has_flag
  split
  · next h0 =>
    have hk : w.testBit k = false := by
      cases h : w.testBit k
      · rfl
      · exact absurd h0 ((and_two_pow_ne_zero w k).2 h)
    by_cases hki : k = i
    · subst hki
      simp [hk]
    · simp [hki]
  · next h0 =>
    have hk : w.testBit k = true := (and_two_pow_ne_zero w k).1 h0
    by_cases hki : k = i
    · subst hki
      simp [Nat.testBit_xor, Nat.testBit_two_pow, hk]
    · simp [Nat.testBit_xor, Nat.testBit_two_pow, hki]

theorem known_mask_cons (e : Nat × String) (table : List (Nat × String)) :
    known_mask (e :: table) = e.1 ||| known_mask table := rfl

theorem ldiff_ldiff (a b c : Nat) : Nat.ldiff (Nat.ldiff a b) c = Nat.ldiff a (b ||| c) := by
  apply Nat.eq_of_testBit_eq
  intro i
  simp only [Nat.testBit_ldiff, Nat.testBit_or]
  cases a.testBit i <;> cases b.testBit i <;> cases c.testBit i <;> rfl

theorem ldiff_zero_right (a : Nat) : Nat.ldiff a 0 = a := by
  apply Nat.eq_of_testBit_eq
  intro i
  simp [Nat.testBit_ldiff]

/-- The working copy left by a run of tests is the input with the known bits
cleared. -/
theorem test_bits_snd (table : List (Nat × String)) (hs : ∀ e ∈ table, SingleBit e.1)
    (w : Nat) : (test_bits has_flag table w).2 = Nat.ldiff w (known_mask table) := by
  induction table generalizing w with
  | nil => simp [test_bits, known_mask, ldiff_zero_right]
  | cons e rest ih =>
    obtain ⟨c, t⟩ := e
    obtain ⟨k, hk⟩ := hs (c, t) (List.mem_cons_self _ _)
    simp only at hk
    subst hk
    have hrest : ∀ e ∈ rest, SingleBit e.1 := fun e he => hs e (List.mem_cons_of_mem _ he)
    simp only [test_bits]
    rw [ih hrest, has_flag_two_pow_snd, ldiff_ldiff, known_mask_cons]

/-- Every entry a run of tests writes is the text of a table entry, without
arguments. -/
theorem test_bits_mem_table (has : Nat → Nat → Bool × Nat) (table : List (Nat × String))
    (w : Nat) (l : Log) (hl : l ∈ (test_bits has table w).1) :
    ∃ e ∈ table, l = Log.g_printerr e.2 [] := by
  induction table generalizing w with
  | nil => simp [test_bits] at hl
  | cons e rest ih =>
    obtain ⟨c, t⟩ := e
    simp only [test_bits, List.mem_append] at hl
    rcases hl with hl | hl
    · split at hl
      · rw [List.mem_singleton] at hl
        exact ⟨(c, t), List.mem_cons_self _ _, hl⟩
      · simp at hl
    · obtain ⟨e, he, hle⟩ := ih _ hl
      exact ⟨e, List.mem_cons_of_mem _ he, hle⟩

/-- What a run of tests over distinct single bits writes: the text of exactly
those entries whose bit is set in the input. -/
theorem test_bits_mem (table : List (Nat × String)) (hd : DistinctSingleBits table)
    (w : Nat) (l : Log) :
    l ∈ (test_bits has_flag table w).1 ↔
      ∃ e ∈ table, l = Log.g_printerr e.2 [] ∧ w &&& e.1 ≠ 0 := by
  induction table generalizing w with
  | nil => simp [test_bits]
  | cons e rest ih =>
    obtain ⟨c, t⟩ := e
    obtain ⟨hs, hn⟩ := hd
    obtain ⟨k, hk⟩ := hs (c, t) (List.mem_cons_self _ _)
    simp only at hk
    subst hk
    have hrest : DistinctSingleBits rest :=
      ⟨fun e he => hs e (List.mem_cons_of_mem _ he), (List.nodup_cons.1 hn).2⟩
    have hnotin : (2 ^ k) ∉ rest.map Prod.fst := (List.nodup_cons.1 hn).1
    have hkeep : ∀ e ∈ rest, ((has_flag w (2 ^ k)).2 &&& e.1 ≠ 0 ↔ w &&& e.1 ≠ 0) := by
      intro e he
      obtain ⟨j, hj⟩ := hs e (List.mem_cons_of_mem _ he)
      have hjk : k ≠ j := by
        intro hkj
        apply hnotin
        rw [hkj, ← hj]
        exact List.mem_map_of_mem _ he
      rw [hj, and_two_pow_ne_zero, and_two_pow_ne_zero, has_flag_two_pow_snd,
        Nat.testBit_ldiff, Nat.testBit_two_pow]
      simp [hjk]
    simp only [test_bits, List.mem_append, ih hrest, List.mem_cons, exists_eq_or_imp]
    constructor
    · rintro (h | ⟨e, he, hle, hbit⟩)
      · left
        split at h
        · next hhit =>
          rw [has_flag_two_pow_fst] at hhit
          exact ⟨List.mem_singleton.1 h, (and_two_pow_ne_zero w k).2 hhit⟩
        · simp at h
      · exact Or.inr ⟨e, he, hle, (hkeep e he).1 hbit⟩
    · rintro (⟨hl, hbit⟩ | ⟨e, he, hle, hbit⟩)
      · left
        rw [has_flag_two_pow_fst, (and_two_pow_ne_zero w k).1 hbit]
        simp [hl]
      · exact Or.inr ⟨e, he, hle, (hkeep e he).2 hbit⟩

theorem flag_names_nodup (E : Embedder) : ((flag_table E).map Prod.snd).Nodup := by
  simp [flag_table]

theorem action_names_nodup (E : Embedder) : ((action_table E).map Prod.snd).Nodup := by
  simp [action_table]

theorem flag_names_avoid (E : Embedder) :
    ∀ e ∈ flag_table E, e.2 ∉ ["  flags:", " 0x%x", "\n"] := by
  simp [flag_table]

theorem action_names_avoid (E : Embedder) :
    ∀ e ∈ action_table E, e.2 ∉ ["  actions:", " 0x%x", "\n"] := by
  simp [action_table]

theorem ldiff_zero_left (a : Nat) : Nat.ldiff 0 a = 0 := by
  apply Nat.eq_of_testBit_eq
  intro i
  simp [Nat.testBit_ldiff]

theorem ldiff_ne_zero_iff (m k : Nat) :
    Nat.ldiff m k ≠ 0 ↔ ∃ i, m.testBit i = true ∧ k.testBit i = false := by
  constructor
  · intro h
    by_contra hno
    apply h
    apply Nat.eq_of_testBit_eq
    intro i
    rw [Nat.testBit_ldiff, Nat.zero_testBit]
    cases hm : m.testBit i
    · rfl
    · cases hk : k.testBit i
      · exact absurd ⟨i, hm, hk⟩ hno
      · rfl
  · rintro ⟨i, hm, hk⟩ h0
    have : (Nat.ldiff m k).testBit i = true := by
      rw [Nat.testBit_ldiff, hm, hk]
      rfl
    rw [h0, Nat.zero_testBit] at this
    cases this

theorem and_or_ldiff (m k : Nat) : (m &&& k) ||| Nat.ldiff m k = m := by
  apply Nat.eq_of_testBit_eq
  intro i
  simp only [Nat.testBit_or, Nat.testBit_and, Nat.testBit_ldiff]
  cases m.testBit i <;> cases k.testBit i <;> rfl

theorem and_and_ldiff (m k : Nat) : (m &&& k) &&& Nat.ldiff m k = 0 := by
  apply Nat.eq_of_testBit_eq
  intro i
  simp only [Nat.testBit_and, Nat.testBit_ldiff, Nat.zero_testBit]
  cases m.testBit i <;> cases k.testBit i <;> rfl

/-- The texts of a block: a table entry is printed exactly when its bit is set
in the input mask. -/
theorem print_bits_name_mem (header : String) (table : List (Nat × String)) (mask : Nat)
    (hd : DistinctSingleBits table) (hnames : (table.map Prod.snd).Nodup)
    (havoid : ∀ e ∈ table, e.2 ∉ [header, " 0x%x", "\n"]) (e : Nat × String)
    (he : e ∈ table) :
    Log.g_printerr e.2 [] ∈ print_bits header table mask ↔ mask &&& e.1 ≠ 0 := by
  have hav := havoid e he
  simp only [List.mem_cons, List.mem_singleton, List.not_mem_nil, or_false, not_or] at hav
  obtain ⟨hh, _, hnl⟩ := hav
  unfold print_bits
  by_cases hm : mask = 0
  · subst hm
    simp
  · simp only [ne_eq, hm, not_false_eq_true, if_true, List.mem_append, List.mem_singleton,
      Log.g_printerr.injEq, and_true, test_bits_mem table hd]
    constructor
    · rintro (((h | ⟨e', he', hname, hbit⟩) | h) | h)
      · exact absurd h hh
      · have : e = e' := List.inj_on_of_nodup_map hnames he he' hname
        rw [this]
        exact hbit
      · split at h <;> simp at h
      · exact absurd h hnl
    · intro hbit
      exact Or.inl (Or.inl (Or.inr ⟨e, he, rfl, hbit⟩))

theorem known_mask_filter (table : List (Nat × String)) (hs : ∀ e ∈ table, SingleBit e.1)
    (mask : Nat) (p : Nat × String → Bool)
    (hp : ∀ e ∈ table, (p e = true ↔ mask &&& e.1 ≠ 0)) :
    known_mask (table.filter p) = mask &&& known_mask table := by
  induction table with
  | nil => simp [known_mask]
  | cons e rest ih =>
    have ih2 := ih (fun e he => hs e (List.mem_cons_of_mem _ he))
      (fun e he => hp e (List.mem_cons_of_mem _ he))
    obtain ⟨k, hk⟩ := hs e (List.mem_cons_self _ _)
    have hpe := hp e (List.mem_cons_self _ _)
    rw [hk, and_two_pow_ne_zero] at hpe
    apply Nat.eq_of_testBit_eq
    intro i
    cases hb : p e
    · have hbit : mask.testBit k = false := by
        cases h : mask.testBit k
        · rfl
        · rw [hpe.2 h] at hb
          cases hb
      rw [List.filter_cons_of_neg (by simp [hb]), ih2, known_mask_cons, hk]
      simp only [Nat.testBit_and, Nat.testBit_or, Nat.testBit_two_pow]
      by_cases hki : k = i
      · subst hki
        simp [hbit]
      · simp [hki]
    · have hbit : mask.testBit k = true := hpe.1 hb
      rw [List.filter_cons_of_pos hb, known_mask_cons, ih2, known_mask_cons, hk]
      simp only [Nat.testBit_and, Nat.testBit_or, Nat.testBit_two_pow]
      by_cases hki : k = i
      · subst hki
        simp [hbit]
      · simp [hki]

/-- OR-ing the constants of the printed texts of a block gives the known bits
of the input mask. -/
theorem print_bits_reported_mask (header : String) (table : List (Nat × String)) (mask : Nat)
    (hd : DistinctSingleBits table) (hnames : (table.map Prod.snd).Nodup)
    (havoid : ∀ e ∈ table, e.2 ∉ [header, " 0x%x", "\n"]) :
    reported_mask table (print_bits header table mask) = mask &&& known_mask table := by
  unfold reported_mask reported
  apply known_mask_filter table hd.1 mask
  intro e he
  rw [decide_eq_true_iff]
  exact print_bits_name_mem header table mask hd hnames havoid e he

/-- The leftover entry of a block: printed exactly when the input has a bit
outside the table, and then with the input stripped of the known bits. -/
theorem print_bits_leftover (header : String) (table : List (Nat × String)) (mask : Nat)
    (hs : ∀ e ∈ table, SingleBit e.1) (hheader : header ≠ " 0x%x")
    (havoid : ∀ e ∈ table, e.2 ∉ [header, " 0x%x", "\n"]) (args : List Arg) :
    Log.g_printerr " 0x%x" args ∈ print_bits header table mask ↔
      Nat.ldiff mask (known_mask table) ≠ 0 ∧
        args = [.uint (Nat.ldiff mask (known_mask table))] := by
  unfold print_bits
  by_cases hm : mask = 0
  · subst hm
    simp [ldiff_zero_left]
  · simp only [ne_eq, hm, not_false_eq_true, if_true, List.mem_append, List.mem_singleton,
      Log.g_printerr.injEq, test_bits_snd table hs]
    constructor
    · rintro (((h | h) | h) | h)
      · exact absurd h.1.symm hheader
      · obtain ⟨e, he, hle⟩ := test_bits_mem_table _ _ _ _ h
        have hav := havoid e he
        simp only [List.mem_cons, List.mem_singleton, List.not_mem_nil, or_false, not_or] at hav
        injection hle with h1 h2
        exact absurd h1.symm hav.2.1
      · split at h
        · next hne =>
          rw [List.mem_singleton] at h
          injection h with h1 h2
          exact ⟨hne, h2⟩
        · simp at h
      · exact absurd h.1 (by decide)
    · rintro ⟨hne, hargs⟩
      refine Or.inl (Or.inr ?_)
      rw [if_pos hne, hargs]
      exact List.mem_singleton.2 rfl

/-- Every entry of a block is its header, the text of a table entry whose bit
is set, the leftover entry or the final newline. -/
theorem print_bits_mem_cases (header : String) (table : List (Nat × String)) (mask : Nat)
    (hd : DistinctSingleBits table) (l : Log) (hl : l ∈ print_bits header table mask) :
    l = Log.g_printerr header [] ∨
      (∃ e ∈ table, l = Log.g_printerr e.2 [] ∧ mask &&& e.1 ≠ 0) ∨
      l = Log.g_printerr " 0x%x" [.uint (Nat.ldiff mask (known_mask table))] ∨
      l = Log.g_printerr "\n" [] := by
  unfold print_bits at hl
  by_cases hm : mask = 0
  · subst hm
    simp at hl
  · simp only [ne_eq, hm, not_false_eq_true, if_true, List.mem_append, List.mem_singleton,
      test_bits_snd table hd.1, test_bits_mem table hd] at hl
    rcases hl with ((h | h) | h) | h
    · exact Or.inl h
    · exact Or.inr (Or.inl h)
    · split at h
      · exact Or.inr (Or.inr (Or.inl (List.mem_singleton.1 h)))
      · simp at h
    · exact Or.inr (Or.inr (Or.inr h))

theorem singleBit_of_map_pow (table : List (Nat × String)) (ks : List Nat)
    (h : table.map Prod.fst = ks.map fun k => 2 ^ k) : ∀ e ∈ table, SingleBit e.1 := by
  intro e he
  have hmem : e.1 ∈ ks.map fun k => 2 ^ k := h ▸ List.mem_map_of_mem Prod.fst he
  obtain ⟨k, _, hk⟩ := List.mem_map.1 hmem
  exact ⟨k, hk.symm⟩

/-- The flag constants of `embedder_h` are distinct single bits. -/
theorem embedder_h_flags : DistinctSingleBits (flag_table embedder_h) :=
  ⟨singleBit_of_map_pow _
      [0, 1, 2, 3, 4, 5, 6, 7, 8, 9, 10, 11, 12, 13, 14, 15, 16, 17, 18, 20, 21, 22] rfl,
    by decide⟩

/-- The action constants of `embedder_h` are distinct single bits. -/
theorem embedder_h_actions : DistinctSingleBits (action_table embedder_h) :=
  ⟨singleBit_of_map_pow _
      [0, 1, 2, 3, 4, 5, 6, 7, 8, 9, 10, 11, 12, 13, 14, 15, 16, 17, 18, 19, 20] rfl,
    by decide⟩

/-- The `flags` block on the mask `0x80000a` (bits 1, 3 and 23): two names and
the leftover `0x800000`. -/
theorem print_flags_example :
    print_flags embedder_h 0x80000a =
      [.g_printerr "  flags:" [], .g_printerr " IsChecked" [], .g_printerr " IsButton" [],
        .g_printerr " 0x%x" [.uint 0x800000], .g_printerr "\n" []] := by
  decide

/-- The `actions` block on the mask `3`: two names and no leftover. -/
theorem print_actions_example :
    print_actions embedder_h 3 =
      [.g_printerr "  actions:" [], .g_printerr " Tap" [], .g_printerr " LongPress" [],
        .g_printerr "\n" []] := by
  decide

/-- C7: when the enumerated constants are distinct single bits, the `flags`
block prints the text of an enumerated flag exactly when its bit is set in the
input mask, prints nothing else besides the header, the leftover and the
newline, and OR-ing the constants of the printed texts gives the input mask
AND the mask of the known bits; the `actions` block does the same. -/
theorem decoder_reports_exactly_the_set_bits (E : Embedder)
    (hflags : DistinctSingleBits (flag_table E))
    (hactions : DistinctSingleBits (action_table E)) (mask : Nat) :
    ((∀ e ∈ flag_table E, (Log.g_printerr e.2 [] ∈ print_flags E mask ↔ mask &&& e.1 ≠ 0)) ∧
      (∀ l ∈ print_flags E mask,
        l = Log.g_printerr "  flags:" [] ∨
          (∃ e ∈ flag_table E, l = Log.g_printerr e.2 [] ∧ mask &&& e.1 ≠ 0) ∨
          l = Log.g_printerr " 0x%x" [.uint (Nat.ldiff mask (known_mask (flag_table E)))] ∨
          l = Log.g_printerr "\n" []) ∧
      reported_mask (flag_table E) (print_flags E mask) =
        mask &&& known_mask (flag_table E)) ∧
    ((∀ e ∈ action_table E,
        (Log.g_printerr e.2 [] ∈ print_actions E mask ↔ mask &&& e.1 ≠ 0)) ∧
      (∀ l ∈ print_actions E mask,
        l = Log.g_printerr "  actions:" [] ∨
          (∃ e ∈ action_table E, l = Log.g_printerr e.2 [] ∧ mask &&& e.1 ≠ 0) ∨
          l = Log.g_printerr " 0x%x" [.uint (Nat.ldiff mask (known_mask (action_table E)))] ∨
          l = Log.g_printerr "\n" []) ∧
      reported_mask (action_table E) (print_actions E mask) =
        mask &&& known_mask (action_table E)) := by
  refine ⟨⟨?_, ?_, ?_⟩, ⟨?_, ?_, ?_⟩⟩
  · intro e he
    rw [print_flags_eq]
    exact print_bits_name_mem _ _ mask hflags (flag_names_nodup E) (flag_names_avoid E) e he
  · intro l hl
    rw [print_flags_eq] at hl
    exact print_bits_mem_cases _ _ mask hflags l hl
  · rw [print_flags_eq]
    exact print_bits_reported_mask _ _ mask hflags (flag_names_nodup E) (flag_names_avoid E)
  · intro e he
    rw [print_actions_eq]
    exact print_bits_name_mem _ _ mask hactions (action_names_nodup E)
      (action_names_avoid E) e he
  · intro l hl
    rw [print_actions_eq] at hl
    exact print_bits_mem_cases _ _ mask hactions l hl
  · rw [print_actions_eq]
    exact print_bits_reported_mask _ _ mask hactions (action_names_nodup E)
      (action_names_avoid E)

theorem decoder_reports_exactly_the_set_bits_witness :
    DistinctSingleBits (flag_table embedder_h) ∧
      DistinctSingleBits (action_table embedder_h) ∧
      reported_mask (flag_table embedder_h) (print_flags embedder_h 0x80000a) = 0xa ∧
      reported_mask (action_table embedder_h) (print_actions embedder_h 0x80000a) = 0xa :=
  ⟨embedder_h_flags, embedder_h_actions,
    ((decoder_reports_exactly_the_set_bits embedder_h embedder_h_flags embedder_h_actions
      0x80000a).1.2.2).trans (by decide),
    ((decoder_reports_exactly_the_set_bits embedder_h embedder_h_flags embedder_h_actions
      0x80000a).2.2.2).trans (by decide)⟩

/-- C8: when the enumerated constants are distinct single bits, the `flags`
block prints a leftover entry exactly when the input mask has a bit outside the
enumeration, the value printed is the input mask AND NOT the mask of the known
bits, and the printed known bits and the leftover are disjoint and OR to the
input mask; the `actions` block does the same. -/
theorem decoder_leftover_is_the_unknown_bits (E : Embedder)
    (hflags : DistinctSingleBits (flag_table E))
    (hactions : DistinctSingleBits (action_table E)) (mask : Nat) :
    (((∃ args, Log.g_printerr " 0x%x" args ∈ print_flags E mask) ↔
        ∃ i, mask.testBit i = true ∧ (known_mask (flag_table E)).testBit i = false) ∧
      (∀ args, Log.g_printerr " 0x%x" args ∈ print_flags E mask →
        args = [.uint (Nat.ldiff mask (known_mask (flag_table E)))]) ∧
      reported_mask (flag_table E) (print_flags E mask) |||
          Nat.ldiff mask (known_mask (flag_table E)) = mask ∧
      reported_mask (flag_table E) (print_flags E mask) &&&
          Nat.ldiff mask (known_mask (flag_table E)) = 0) ∧
    (((∃ args, Log.g_printerr " 0x%x" args ∈ print_actions E mask) ↔
        ∃ i, mask.testBit i = true ∧ (known_mask (action_table E)).testBit i = false) ∧
      (∀ args, Log.g_printerr " 0x%x" args ∈ print_actions E mask →
        args = [.uint (Nat.ldiff mask (known_mask (action_table E)))]) ∧
      reported_mask (action_table E) (print_actions E mask) |||
          Nat.ldiff mask (known_mask (action_table E)) = mask ∧
      reported_mask (action_table E) (print_actions E mask) &&&
          Nat.ldiff mask (known_mask (action_table E)) = 0) := by
  have hf := fun args =>
    print_bits_leftover "  flags:" (flag_table E) mask hflags.1 (by decide)
      (flag_names_avoid E) args
  have ha := fun args =>
    print_bits_leftover "  actions:" (action_table E) mask hactions.1 (by decide)
      (action_names_avoid E) args
  have hrf := print_bits_reported_mask "  flags:" (flag_table E) mask hflags
    (flag_names_nodup E) (flag_names_avoid E)
  have hra := print_bits_reported_mask "  actions:" (action_table E) mask hactions
    (action_names_nodup E) (action_names_avoid E)
  rw [print_flags_eq, print_actions_eq, hrf, hra]
  refine ⟨⟨?_, ?_, and_or_ldiff _ _, and_and_ldiff _ _⟩,
    ⟨?_, ?_, and_or_ldiff _ _, and_and_ldiff _ _⟩⟩
  · rw [← ldiff_ne_zero_iff]
    constructor
    · rintro ⟨args, h⟩
      exact ((hf args).1 h).1
    · intro h
      exact ⟨_, (hf _).2 ⟨h, rfl⟩⟩
  · intro args h
    exact ((hf args).1 h).2
  · rw [← ldiff_ne_zero_iff]
    constructor
    · rintro ⟨args, h⟩
      exact ((ha args).1 h).1
    · intro h
      exact ⟨_, (ha _).2 ⟨h, rfl⟩⟩
  · intro args h
    exact ((ha args).1 h).2

theorem decoder_leftover_is_the_unknown_bits_witness :
    DistinctSingleBits (flag_table embedder_h) ∧
      DistinctSingleBits (action_table embedder_h) ∧
      reported_mask (flag_table embedder_h) (print_flags embedder_h 0x80000a) |||
          Nat.ldiff 0x80000a (known_mask (flag_table embedder_h)) = 0x80000a ∧
      reported_mask (action_table embedder_h) (print_actions embedder_h 0x80000a) &&&
          Nat.ldiff 0x80000a (known_mask (action_table embedder_h)) = 0 :=
  ⟨embedder_h_flags, embedder_h_actions,
    (decoder_leftover_is_the_unknown_bits embedder_h embedder_h_flags embedder_h_actions
      0x80000a).1.2.2.1,
    (decoder_leftover_is_the_unknown_bits embedder_h embedder_h_flags embedder_h_actions
      0x80000a).2.2.2.2⟩

/-! ## The node printer: which block writes which format -/

theorem print_bits_fmt (header : String) (table : List (Nat × String)) (mask : Nat) (l : Log)
    (hl : l ∈ print_bits header table mask) :
    l.fmt ∈ header :: " 0x%x" :: "\n" :: table.map Prod.snd := by
  unfold print_bits at hl
  split at hl
  · simp only [List.mem_append, List.mem_singleton] at hl
    rcases hl with ((h | h) | h) | h
    · subst h
      simp [Log.fmt]
    · obtain ⟨e, he, hle⟩ := test_bits_mem_table _ _ _ _ h
      subst hle
      simp only [Log.fmt, List.mem_cons]
      exact Or.inr (Or.inr (Or.inr (List.mem_map_of_mem Prod.snd he)))
    · split at h
      · rw [List.mem_singleton] at h
        subst h
        simp [Log.fmt]
      · simp at h
    · subst h
      simp [Log.fmt]
  · simp at hl

theorem print_flags_fmt (E : Embedder) (mask : Nat) (l : Log) (hl : l ∈ print_flags E mask) :
    l.fmt ∈ "  flags:" :: " 0x%x" :: "\n" :: (flag_table E).map Prod.snd :=
  print_bits_fmt _ _ _ l hl

theorem print_actions_fmt (E : Embedder) (mask : Nat) (l : Log)
    (hl : l ∈ print_actions E mask) :
    l.fmt ∈ "  actions:" :: " 0x%x" :: "\n" :: (action_table E).map Prod.snd :=
  print_bits_fmt _ _ _ l hl

theorem print_int_fields_fmt (node : FlutterSemanticsNode) (l : Log)
    (hl : l ∈ print_int_fields node) :
    l.fmt ∈ ["  text_selection_base: %d\n", "  text_selection_extent: %d\n",
      "  scroll_child_count: %d\n", "  scroll_index: %d\n"] := by
  unfold print_int_fields at hl
  simp only [List.mem_append] at hl
  rcases hl with ((h | h) | h) | h <;> split at h <;> simp at h <;> subst h <;> simp [Log.fmt]

theorem print_double_fields_fmt (node : FlutterSemanticsNode) (l : Log)
    (hl : l ∈ print_double_fields node) :
    l.fmt ∈ ["  scroll_position: %g\n", "  scroll_extent_max: %g\n",
      "  scroll_extent_min: %g\n", "  elevation: %g\n", "  thickness: %g\n"] := by
  unfold print_double_fields at hl
  simp only [List.mem_append] at hl
  rcases hl with (((h | h) | h) | h) | h <;> split at h <;> simp at h <;> subst h <;>
    simp [Log.fmt]

theorem print_strings_fmt (node : FlutterSemanticsNode) (l : Log)
    (hl : l ∈ print_strings node) :
    l.fmt ∈ ["  label: %s\n", "  hint: %s\n", "  value: %s\n", "  increased_value: %s\n",
      "  decreased_value: %s\n"] := by
  unfold print_strings at hl
  simp only [List.mem_append] at hl
  rcases hl with (((h | h) | h) | h) | h <;> split at h <;> simp at h <;> subst h <;>
    simp [Log.fmt]

theorem print_text_direction_fmt (E : Embedder) (node : FlutterSemanticsNode) (l : Log)
    (hl : l ∈ print_text_direction E node) :
    l.fmt ∈ ["  text_direction: ", "RTL", "LTR", "%d\n", "\n"] := by
  unfold print_text_direction at hl
  split at hl
  · simp only [List.mem_append, List.mem_singleton] at hl
    rcases hl with (h | h) | h
    · subst h
      simp [Log.fmt]
    · split at h
      · rw [List.mem_singleton] at h
        subst h
        simp [Log.fmt]
      · split at h <;> rw [List.mem_singleton] at h <;> subst h <;> simp [Log.fmt]
    · subst h
      simp [Log.fmt]
  · simp at hl

theorem print_rect_fmt (node : FlutterSemanticsNode) (l : Log) (hl : l ∈ print_rect node) :
    l.fmt ∈ ["  rect: %g %g %g %g (lrtb)\n"] := by
  unfold print_rect at hl
  rw [List.mem_singleton] at hl
  subst hl
  simp [Log.fmt]

theorem print_transform_fmt (node : FlutterSemanticsNode) (l : Log)
    (hl : l ∈ print_transform node) :
    l.fmt ∈ ["  transform:", " translate(%g, %g)", " scale(%g, %g)", " skew(%g, %g)",
      " perspective(%g, %g, %g)", "\n"] := by
  unfold print_transform at hl
  simp only at hl
  split at hl
  · simp only [List.mem_append, List.mem_singleton] at hl
    rcases hl with ((((h | h) | h) | h) | h) | h
    · subst h
      simp [Log.fmt]
    · split at h <;> simp at h
      subst h
      simp [Log.fmt]
    · split at h <;> simp at h
      subst h
      simp [Log.fmt]
    · split at h <;> simp at h
      subst h
      simp [Log.fmt]
    · split at h <;> simp at h
      subst h
      simp [Log.fmt]
    · subst h
      simp [Log.fmt]
  · simp at hl

theorem print_ids_fmt (count : Nat) (array : List Int) (l : Log)
    (hl : l ∈ print_ids count array) : l.fmt = " %d" := by
  unfold print_ids at hl
  obtain ⟨i, _, hi⟩ := List.mem_map.1 hl
  subst hi
  rfl

theorem print_children_fmt (node : FlutterSemanticsNode) (l : Log)
    (hl : l ∈ print_children node) :
    l.fmt ∈ ["  children_in_traversal_order:", "  children_in_hit_test_order:", " %d",
      "\n"] := by
  unfold print_children at hl
  split at hl
  · simp only [List.mem_append, List.mem_singleton] at hl
    rcases hl with ((((h | h) | h) | h) | h) | h
    · subst h
      simp [Log.fmt]
    · simp [print_ids_fmt _ _ l h]
    · subst h
      simp [Log.fmt]
    · subst h
      simp [Log.fmt]
    · simp [print_ids_fmt _ _ l h]
    · subst h
      simp [Log.fmt]
  · simp at hl

theorem print_custom_actions_fmt (node : FlutterSemanticsNode) (l : Log)
    (hl : l ∈ print_custom_actions node) :
    l.fmt ∈ ["  custom_accessibility_actions:", " %d", "\n"] := by
  unfold print_custom_actions at hl
  split at hl
  · simp only [List.mem_append, List.mem_singleton] at hl
    rcases hl with (h | h) | h
    · subst h
      simp [Log.fmt]
    · simp [print_ids_fmt _ _ l h]
    · subst h
      simp [Log.fmt]
  · simp at hl

theorem print_platform_view_id_fmt (node : FlutterSemanticsNode) (l : Log)
    (hl : l ∈ print_platform_view_id node) :
    l.fmt ∈ ["  platform_view_id: %" ++ G_GINT64_FORMAT ++ "\n"] := by
  unfold print_platform_view_id at hl
  split at hl
  · rw [List.mem_singleton] at hl
    subst hl
    simp [Log.fmt]
  · simp at hl

/-- The log of a record that is not the batch end, block by block. -/
theorem node_log_mem (E : Embedder) (node : FlutterSemanticsNode)
    (hid : node.id ≠ E.kFlutterSemanticsCustomActionIdBatchEnd) (l : Log) :
    l ∈ fl_accessibility_plugin_handle_update_semantics_node E node ↔
      l ∈ [Log.g_printerr "Semantics Node\n" [], Log.g_printerr "  id: %d\n" [.int node.id]] ∨
        l ∈ print_flags E node.flags ∨ l ∈ print_actions E node.actions ∨
        l ∈ print_int_fields node ∨ l ∈ print_double_fields node ∨
        l ∈ print_strings node ∨ l ∈ print_text_direction E node ∨
        l ∈ print_rect node ∨ l ∈ print_transform node ∨
        l ∈ print_children node ∨ l ∈ print_custom_actions node ∨
        l ∈ print_platform_view_id node := by
  unfold fl_accessibility_plugin_handle_update_semantics_node
  rw [if_neg hid]
  simp only [List.mem_append, or_assoc]

theorem flag_table_names (E : Embedder) : (flag_table E).map Prod.snd = flag_names := rfl

theorem action_table_names (E : Embedder) : (action_table E).map Prod.snd = action_names := rfl

theorem header_fmt (node : FlutterSemanticsNode) (l : Log)
    (hl : l ∈ [Log.g_printerr "Semantics Node\n" [],
      Log.g_printerr "  id: %d\n" [.int node.id]]) :
    l.fmt ∈ ["Semantics Node\n", "  id: %d\n"] := by
  simp only [List.mem_cons, List.mem_singleton, List.not_mem_nil, or_false] at hl
  rcases hl with h | h <;> subst h <;> simp [Log.fmt]

/-- The log of the sample record under `embedder_h`. -/
theorem sample_node_log :
    fl_accessibility_plugin_handle_update_semantics_node embedder_h sample_node =
      [.g_printerr "Semantics Node\n" [], .g_printerr "  id: %d\n" [.int 7],
        .g_printerr "  flags:" [], .g_printerr " IsChecked" [], .g_printerr " IsButton" [],
        .g_printerr " 0x%x" [.uint 0x800000], .g_printerr "\n" [],
        .g_printerr "  actions:" [], .g_printerr " Tap" [], .g_printerr " LongPress" [],
        .g_printerr "\n" [],
        .g_printerr "  text_selection_extent: %d\n" [.int (-2)],
        .g_printerr "  scroll_index: %d\n" [.int 5],
        .g_printerr "  label: %s\n" [.str "OK"],
        .g_printerr "  rect: %g %g %g %g (lrtb)\n"
          [.dbl Double.zero, .dbl Double.one, .dbl Double.zero, .dbl Double.one],
        .g_printerr "  platform_view_id: %li\n" [.int 0]] := by
  decide

/-- An entry with one of the four integer formats is in the log of a record
exactly when the block of lines 280-287 writes it. -/
theorem node_log_int_fields (E : Embedder) (node : FlutterSemanticsNode)
    (hid : node.id ≠ E.kFlutterSemanticsCustomActionIdBatchEnd) (l : Log)
    (hfmt : l.fmt ∈ ["  text_selection_base: %d\n", "  text_selection_extent: %d\n",
      "  scroll_child_count: %d\n", "  scroll_index: %d\n"]) :
    l ∈ fl_accessibility_plugin_handle_update_semantics_node E node ↔
      l ∈ print_int_fields node := by
  rw [node_log_mem E node hid]
  constructor
  · rintro (h | h | h | h | h | h | h | h | h | h | h | h)
    · exact absurd (header_fmt node l h) ((by decide : ∀ s ∈ _, s ∉ _) _ hfmt)
    · have h2 := print_flags_fmt E _ l h
      rw [flag_table_names] at h2
      exact absurd h2 ((by decide : ∀ s ∈ _, s ∉ _) _ hfmt)
    · have h2 := print_actions_fmt E _ l h
      rw [action_table_names] at h2
      exact absurd h2 ((by decide : ∀ s ∈ _, s ∉ _) _ hfmt)
    · exact h
    · exact absurd (print_double_fields_fmt node l h) ((by decide : ∀ s ∈ _, s ∉ _) _ hfmt)
    · exact absurd (print_strings_fmt node l h) ((by decide : ∀ s ∈ _, s ∉ _) _ hfmt)
    · exact absurd (print_text_direction_fmt E node l h)
        ((by decide : ∀ s ∈ _, s ∉ _) _ hfmt)
    · exact absurd (print_rect_fmt node l h) ((by decide : ∀ s ∈ _, s ∉ _) _ hfmt)
    · exact absurd (print_transform_fmt node l h) ((by decide : ∀ s ∈ _, s ∉ _) _ hfmt)
    · exact absurd (print_children_fmt node l h) ((by decide : ∀ s ∈ _, s ∉ _) _ hfmt)
    · exact absurd (print_custom_actions_fmt node l h)
        ((by decide : ∀ s ∈ _, s ∉ _) _ hfmt)
    · exact absurd (print_platform_view_id_fmt node l h)
        ((by decide : ∀ s ∈ _, s ∉ _) _ hfmt)
  · intro h
    exact Or.inr (Or.inr (Or.inr (Or.inl h)))

/-- An entry with the platform view format is in the log of a record exactly
when lines 361-363 write it. -/
theorem node_log_platform_view_id (E : Embedder) (node : FlutterSemanticsNode)
    (hid : node.id ≠ E.kFlutterSemanticsCustomActionIdBatchEnd) (l : Log)
    (hfmt : l.fmt ∈ ["  platform_view_id: %" ++ G_GINT64_FORMAT ++ "\n"]) :
    l ∈ fl_accessibility_plugin_handle_update_semantics_node E node ↔
      l ∈ print_platform_view_id node := by
  rw [node_log_mem E node hid]
  constructor
  · rintro (h | h | h | h | h | h | h | h | h | h | h | h)
    · exact absurd (header_fmt node l h) ((by decide : ∀ s ∈ _, s ∉ _) _ hfmt)
    · have h2 := print_flags_fmt E _ l h
      rw [flag_table_names] at h2
      exact absurd h2 ((by decide : ∀ s ∈ _, s ∉ _) _ hfmt)
    · have h2 := print_actions_fmt E _ l h
      rw [action_table_names] at h2
      exact absurd h2 ((by decide : ∀ s ∈ _, s ∉ _) _ hfmt)
    · exact absurd (print_int_fields_fmt node l h) ((by decide : ∀ s ∈ _, s ∉ _) _ hfmt)
    · exact absurd (print_double_fields_fmt node l h) ((by decide : ∀ s ∈ _, s ∉ _) _ hfmt)
    · exact absurd (print_strings_fmt node l h) ((by decide : ∀ s ∈ _, s ∉ _) _ hfmt)
    · exact absurd (print_text_direction_fmt E node l h)
        ((by decide : ∀ s ∈ _, s ∉ _) _ hfmt)
    · exact absurd (print_rect_fmt node l h) ((by decide : ∀ s ∈ _, s ∉ _) _ hfmt)
    · exact absurd (print_transform_fmt node l h) ((by decide : ∀ s ∈ _, s ∉ _) _ hfmt)
    · exact absurd (print_children_fmt node l h) ((by decide : ∀ s ∈ _, s ∉ _) _ hfmt)
    · exact absurd (print_custom_actions_fmt node l h)
        ((by decide : ∀ s ∈ _, s ∉ _) _ hfmt)
    · exact h
  · intro h
    exact Or.inr (Or.inr (Or.inr (Or.inr (Or.inr (Or.inr (Or.inr (Or.inr (Or.inr (Or.inr
      (Or.inr h))))))))))

/-- C9: in the log of a record that is not the batch end, the entry of
`text_selection_base` (resp. `text_selection_extent`) is present exactly when
the field differs from `-1`, the entry of `scroll_child_count` (resp.
`scroll_index`) exactly when the field differs from `0`, and the entry of
`platform_view_id` exactly when the field differs from `-1`; a present entry
carries the value of the field and nothing else, and each entry depends on its
own field only. -/
theorem sentinel_int_fields (E : Embedder) (node : FlutterSemanticsNode)
    (hid : node.id ≠ E.kFlutterSemanticsCustomActionIdBatchEnd) (args : List Arg) :
    (Log.g_printerr "  text_selection_base: %d\n" args ∈
        fl_accessibility_plugin_handle_update_semantics_node E node ↔
      node.text_selection_base ≠ -1 ∧ args = [.int node.text_selection_base]) ∧
    (Log.g_printerr "  text_selection_extent: %d\n" args ∈
        fl_accessibility_plugin_handle_update_semantics_node E node ↔
      node.text_selection_extent ≠ -1 ∧ args = [.int node.text_selection_extent]) ∧
    (Log.g_printerr "  scroll_child_count: %d\n" args ∈
        fl_accessibility_plugin_handle_update_semantics_node E node ↔
      node.scroll_child_count ≠ 0 ∧ args = [.int node.scroll_child_count]) ∧
    (Log.g_printerr "  scroll_index: %d\n" args ∈
        fl_accessibility_plugin_handle_update_semantics_node E node ↔
      node.scroll_index ≠ 0 ∧ args = [.int node.scroll_index]) ∧
    (Log.g_printerr ("  platform_view_id: %" ++ G_GINT64_FORMAT ++ "\n") args ∈
        fl_accessibility_plugin_handle_update_semantics_node E node ↔
      node.platform_view_id ≠ -1 ∧ args = [.int node.platform_view_id]) := by
  refine ⟨?_, ?_, ?_, ?_, ?_⟩
  · rw [node_log_int_fields E node hid _ (by simp [Log.fmt])]
    simp [print_int_fields]
  · rw [node_log_int_fields E node hid _ (by simp [Log.fmt])]
    simp [print_int_fields]
  · rw [node_log_int_fields E node hid _ (by simp [Log.fmt])]
    simp [print_int_fields]
  · rw [node_log_int_fields E node hid _ (by simp [Log.fmt])]
    simp [print_int_fields]
  · rw [node_log_platform_view_id E node hid _ (by simp [Log.fmt])]
    simp [print_platform_view_id]

theorem sentinel_int_fields_witness :
    sample_node.id ≠ embedder_h.kFlutterSemanticsCustomActionIdBatchEnd ∧
      Log.g_printerr ("  platform_view_id: %" ++ G_GINT64_FORMAT ++ "\n") [.int 0] ∈
        fl_accessibility_plugin_handle_update_semantics_node embedder_h sample_node ∧
      Log.g_printerr "  text_selection_extent: %d\n" [.int (-2)] ∈
        fl_accessibility_plugin_handle_update_semantics_node embedder_h sample_node :=
  ⟨by decide,
    (sentinel_int_fields embedder_h sample_node (by decide) [.int 0]).2.2.2.2.2
      ⟨by decide, rfl⟩,
    (sentinel_int_fields embedder_h sample_node (by decide) [.int (-2)]).2.1.2
      ⟨by decide, rfl⟩⟩

/-- C10: on a record whose identifier is the batch-end constant the function
writes the single entry "Semantics Nodes End" and nothing else, whatever the
other fields hold; on any other record the log starts with the node header and
the identifier and has no entry with the batch-end format. -/
theorem batch_end_record (E : Embedder) (node : FlutterSemanticsNode) :
    (node.id = E.kFlutterSemanticsCustomActionIdBatchEnd →
      fl_accessibility_plugin_handle_update_semantics_node E node =
        [Log.g_printerr "Semantics Nodes End\n" []]) ∧
    (node.id ≠ E.kFlutterSemanticsCustomActionIdBatchEnd →
      (∃ rest, fl_accessibility_plugin_handle_update_semantics_node E node =
        Log.g_printerr "Semantics Node\n" [] ::
          Log.g_printerr "  id: %d\n" [.int node.id] :: rest) ∧
      ∀ l ∈ fl_accessibility_plugin_handle_update_semantics_node E node,
        l.fmt ≠ "Semantics Nodes End\n") := by
  constructor
  · intro hid
    unfold fl_accessibility_plugin_handle_update_semantics_node
    rw [if_pos hid]
  · intro hid
    constructor
    · unfold fl_accessibility_plugin_handle_update_semantics_node
      rw [if_neg hid]
      simp only [List.append_assoc, List.cons_append, List.nil_append]
      exact ⟨_, rfl⟩
    · intro l hl heq
      rw [node_log_mem E node hid] at hl
      rcases hl with h | h | h | h | h | h | h | h | h | h | h | h
      · have h2 := header_fmt node l h
        rw [heq] at h2
        exact absurd h2 (by decide)
      · have h2 := print_flags_fmt E _ l h
        rw [flag_table_names, heq] at h2
        exact absurd h2 (by decide)
      · have h2 := print_actions_fmt E _ l h
        rw [action_table_names, heq] at h2
        exact absurd h2 (by decide)
      · have h2 := print_int_fields_fmt node l h
        rw [heq] at h2
        exact absurd h2 (by decide)
      · have h2 := print_double_fields_fmt node l h
        rw [heq] at h2
        exact absurd h2 (by decide)
      · have h2 := print_strings_fmt node l h
        rw [heq] at h2
        exact absurd h2 (by decide)
      · have h2 := print_text_direction_fmt E node l h
        rw [heq] at h2
        exact absurd h2 (by decide)
      · have h2 := print_rect_fmt node l h
        rw [heq] at h2
        exact absurd h2 (by decide)
      · have h2 := print_transform_fmt node l h
        rw [heq] at h2
        exact absurd h2 (by decide)
      · have h2 := print_children_fmt node l h
        rw [heq] at h2
        exact absurd h2 (by decide)
      · have h2 := print_custom_actions_fmt node l h
        rw [heq] at h2
        exact absurd h2 (by decide)
      · have h2 := print_platform_view_id_fmt node l h
        rw [heq] at h2
        exact absurd h2 (by decide)

theorem batch_end_record_witness :
    ({ sample_node with id := -1 } : FlutterSemanticsNode).id =
        embedder_h.kFlutterSemanticsCustomActionIdBatchEnd ∧
      fl_accessibility_plugin_handle_update_semantics_node embedder_h
        { sample_node with id := -1 } = [Log.g_printerr "Semantics Nodes End\n" []] :=
  ⟨by decide, (batch_end_record embedder_h { sample_node with id := -1 }).1 (by decide)⟩

/-! ## The node registry -/

theorem update_semantics_nodes_eq (E : Embedder) (plugin : FlAccessibilityPlugin)
    (nodes : List FlutterSemanticsNode) : update_semantics_nodes E plugin nodes = plugin := by
  unfold update_semantics_nodes
  induction nodes with
  | nil => rfl
  | cons node rest _ => simp [List.foldl, update_semantics_node]

/-- C11, as stated, fails: after the update call for the sample record (whose
identifier 7 is not the batch end) on a fresh plugin, the table has no entry
under 7, so a lookup does not return the record. -/
theorem registry_upsert_counterexample :
    sample_node.id ≠ embedder_h.kFlutterSemanticsCustomActionIdBatchEnd ∧
      registry_get
          (update_semantics_node embedder_h (fl_accessibility_plugin_new 1)
            sample_node).1.semantics_nodes_by_id sample_node.id = none ∧
      ¬ registry_get
          (update_semantics_node embedder_h (fl_accessibility_plugin_new 1)
            sample_node).1.semantics_nodes_by_id sample_node.id = some sample_node := by
  decide

/-- C11, amended: the update call stores nothing.  It returns the plugin
object, and so the table `semantics_nodes_by_id` with all its entries, exactly
as it received them, for every record; the table of a new plugin is empty and
stays empty over any batch of update calls, so a lookup of any identifier finds
nothing. -/
theorem update_leaves_registry_unchanged (E : Embedder) (plugin : FlAccessibilityPlugin)
    (node : FlutterSemanticsNode) :
    (update_semantics_node E plugin node).1 = plugin ∧
      (∀ id, registry_get (update_semantics_node E plugin node).1.semantics_nodes_by_id id =
        registry_get plugin.semantics_nodes_by_id id) ∧
      (∀ (channel : Nat) (nodes : List FlutterSemanticsNode) (id : Int),
        registry_get
          (update_semantics_nodes E (fl_accessibility_plugin_new channel)
            nodes).semantics_nodes_by_id id = none) := by
  refine ⟨rfl, fun _ => rfl, ?_⟩
  intro channel nodes id
  rw [update_semantics_nodes_eq]
  rfl

/-! ## The floating-point fields and the transformation -/

/-- An entry with one of the five floating-point formats is in the log of a
record exactly when the block of lines 288-297 writes it. -/
theorem node_log_double_fields (E : Embedder) (node : FlutterSemanticsNode)
    (hid : node.id ≠ E.kFlutterSemanticsCustomActionIdBatchEnd) (l : Log)
    (hfmt : l.fmt ∈ ["  scroll_position: %g\n", "  scroll_extent_max: %g\n",
      "  scroll_extent_min: %g\n", "  elevation: %g\n", "  thickness: %g\n"]) :
    l ∈ fl_accessibility_plugin_handle_update_semantics_node E node ↔
      l ∈ print_double_fields node := by
  rw [node_log_mem E node hid]
  constructor
  · rintro (h | h | h | h | h | h | h | h | h | h | h | h)
    · exact absurd (header_fmt node l h) ((by decide : ∀ s ∈ _, s ∉ _) _ hfmt)
    · have h2 := print_flags_fmt E _ l h
      rw [flag_table_names] at h2
      exact absurd h2 ((by decide : ∀ s ∈ _, s ∉ _) _ hfmt)
    · have h2 := print_actions_fmt E _ l h
      rw [action_table_names] at h2
      exact absurd h2 ((by decide : ∀ s ∈ _, s ∉ _) _ hfmt)
    · exact absurd (print_int_fields_fmt node l h) ((by decide : ∀ s ∈ _, s ∉ _) _ hfmt)
    · exact h
    · exact absurd (print_strings_fmt node l h) ((by decide : ∀ s ∈ _, s ∉ _) _ hfmt)
    · exact absurd (print_text_direction_fmt E node l h)
        ((by decide : ∀ s ∈ _, s ∉ _) _ hfmt)
    · exact absurd (print_rect_fmt node l h) ((by decide : ∀ s ∈ _, s ∉ _) _ hfmt)
    · exact absurd (print_transform_fmt node l h) ((by decide : ∀ s ∈ _, s ∉ _) _ hfmt)
    · exact absurd (print_children_fmt node l h) ((by decide : ∀ s ∈ _, s ∉ _) _ hfmt)
    · exact absurd (print_custom_actions_fmt node l h)
        ((by decide : ∀ s ∈ _, s ∉ _) _ hfmt)
    · exact absurd (print_platform_view_id_fmt node l h)
        ((by decide : ∀ s ∈ _, s ∉ _) _ hfmt)
  · intro h
    exact Or.inr (Or.inr (Or.inr (Or.inr (Or.inl h))))

/-- An entry with one of the five formats proper to the transformation block
is in the log of a record exactly when lines 325-344 write it. -/
theorem node_log_transform (E : Embedder) (node : FlutterSemanticsNode)
    (hid : node.id ≠ E.kFlutterSemanticsCustomActionIdBatchEnd) (l : Log)
    (hfmt : l.fmt ∈ ["  transform:", " translate(%g, %g)", " scale(%g, %g)",
      " skew(%g, %g)", " perspective(%g, %g, %g)"]) :
    l ∈ fl_accessibility_plugin_handle_update_semantics_node E node ↔
      l ∈ print_transform node := by
  rw [node_log_mem E node hid]
  constructor
  · rintro (h | h | h | h | h | h | h | h | h | h | h | h)
    · exact absurd (header_fmt node l h) ((by decide : ∀ s ∈ _, s ∉ _) _ hfmt)
    · have h2 := print_flags_fmt E _ l h
      rw [flag_table_names] at h2
      exact absurd h2 ((by decide : ∀ s ∈ _, s ∉ _) _ hfmt)
    · have h2 := print_actions_fmt E _ l h
      rw [action_table_names] at h2
      exact absurd h2 ((by decide : ∀ s ∈ _, s ∉ _) _ hfmt)
    · exact absurd (print_int_fields_fmt node l h) ((by decide : ∀ s ∈ _, s ∉ _) _ hfmt)
    · exact absurd (print_double_fields_fmt node l h) ((by decide : ∀ s ∈ _, s ∉ _) _ hfmt)
    · exact absurd (print_strings_fmt node l h) ((by decide : ∀ s ∈ _, s ∉ _) _ hfmt)
    · exact absurd (print_text_direction_fmt E node l h)
        ((by decide : ∀ s ∈ _, s ∉ _) _ hfmt)
    · exact absurd (print_rect_fmt node l h) ((by decide : ∀ s ∈ _, s ∉ _) _ hfmt)
    · exact h
    · exact absurd (print_children_fmt node l h) ((by decide : ∀ s ∈ _, s ∉ _) _ hfmt)
    · exact absurd (print_custom_actions_fmt node l h)
        ((by decide : ∀ s ∈ _, s ∉ _) _ hfmt)
    · exact absurd (print_platform_view_id_fmt node l h)
        ((by decide : ∀ s ∈ _, s ∉ _) _ hfmt)
  · intro h
    exact Or.inr (Or.inr (Or.inr (Or.inr (Or.inr (Or.inr (Or.inr (Or.inr (Or.inl h))))))))

/-- C12: in the log of a record that is not the batch end, the entries of
`scroll_position`, `scroll_extent_max` and `scroll_extent_min` are present
exactly when the field is not a NaN, the entries of `elevation` and `thickness`
exactly when the field is not a zero, and a present entry carries the value of
the field; zeros, negative values and infinities are not NaNs. -/
theorem sentinel_double_fields (E : Embedder) (node : FlutterSemanticsNode)
    (hid : node.id ≠ E.kFlutterSemanticsCustomActionIdBatchEnd) (args : List Arg) :
    (Log.g_printerr "  scroll_position: %g\n" args ∈
        fl_accessibility_plugin_handle_update_semantics_node E node ↔
      isnan node.scroll_position = false ∧ args = [.dbl node.scroll_position]) ∧
    (Log.g_printerr "  scroll_extent_max: %g\n" args ∈
        fl_accessibility_plugin_handle_update_semantics_node E node ↔
      isnan node.scroll_extent_max = false ∧ args = [.dbl node.scroll_extent_max]) ∧
    (Log.g_printerr "  scroll_extent_min: %g\n" args ∈
        fl_accessibility_plugin_handle_update_semantics_node E node ↔
      isnan node.scroll_extent_min = false ∧ args = [.dbl node.scroll_extent_min]) ∧
    (Log.g_printerr "  elevation: %g\n" args ∈
        fl_accessibility_plugin_handle_update_semantics_node E node ↔
      ¬ (node.elevation.exponent = 0 ∧ node.elevation.mantissa = 0) ∧
        args = [.dbl node.elevation]) ∧
    (Log.g_printerr "  thickness: %g\n" args ∈
        fl_accessibility_plugin_handle_update_semantics_node E node ↔
      ¬ (node.thickness.exponent = 0 ∧ node.thickness.mantissa = 0) ∧
        args = [.dbl node.thickness]) ∧
    (∀ x : Double, x.exponent ≠ 2047 → isnan x = false) ∧
    (∀ sign : Bool, isnan ⟨sign, 2047, 0⟩ = false) := by
  refine ⟨?_, ?_, ?_, ?_, ?_, ?_, ?_⟩
  · rw [node_log_double_fields E node hid _ (by simp [Log.fmt])]
    simp [print_double_fields]
  · rw [node_log_double_fields E node hid _ (by simp [Log.fmt])]
    simp [print_double_fields]
  · rw [node_log_double_fields E node hid _ (by simp [Log.fmt])]
    simp [print_double_fields]
  · rw [node_log_double_fields E node hid _ (by simp [Log.fmt])]
    simp [print_double_fields, Double.ne_zero]
    intro _
    tauto
  · rw [node_log_double_fields E node hid _ (by simp [Log.fmt])]
    simp [print_double_fields, Double.ne_zero]
    intro _
    tauto
  · intro x hx
    simp [isnan, hx]
  · intro sign
    simp [isnan]

theorem sentinel_double_fields_witness :
    sample_node_doubles.id ≠ embedder_h.kFlutterSemanticsCustomActionIdBatchEnd ∧
      Log.g_printerr "  scroll_position: %g\n" [.dbl Double.zero] ∈
        fl_accessibility_plugin_handle_update_semantics_node embedder_h sample_node_doubles ∧
      Log.g_printerr "  scroll_extent_min: %g\n" [.dbl Double.inf] ∈
        fl_accessibility_plugin_handle_update_semantics_node embedder_h sample_node_doubles ∧
      Log.g_printerr "  elevation: %g\n" [.dbl Double.neg_two_and_a_half] ∈
        fl_accessibility_plugin_handle_update_semantics_node embedder_h sample_node_doubles :=
  ⟨by decide,
    (sentinel_double_fields embedder_h sample_node_doubles (by decide)
      [.dbl Double.zero]).1.2 ⟨by decide, rfl⟩,
    (sentinel_double_fields embedder_h sample_node_doubles (by decide)
      [.dbl Double.inf]).2.2.1.2 ⟨by decide, rfl⟩,
    (sentinel_double_fields embedder_h sample_node_doubles (by decide)
      [.dbl Double.neg_two_and_a_half]).2.2.2.1.2 ⟨by decide, rfl⟩⟩

/-- C17: in the log of a record that is not the batch end, the transformation
header is present exactly when one of the nine components differs from its
identity value (`0` for `transX`, `transY`, `skewX`, `skewY`, `pers0`, `pers1`
and `1` for `scaleX`, `scaleY`, `pers2`); each of the four groups is printed
exactly when one of its components differs from its identity value, with the
components of the group as arguments; and a present header comes with at least
one group. -/
theorem transform_groups (E : Embedder) (node : FlutterSemanticsNode)
    (hid : node.id ≠ E.kFlutterSemanticsCustomActionIdBatchEnd) :
    (Log.g_printerr "  transform:" [] ∈
        fl_accessibility_plugin_handle_update_semantics_node E node ↔
      (node.transform.transX.ne_zero = true ∨ node.transform.transY.ne_zero = true ∨
        node.transform.scaleX.ne_one = true ∨ node.transform.scaleY.ne_one = true ∨
        node.transform.skewX.ne_zero = true ∨ node.transform.skewY.ne_zero = true ∨
        node.transform.pers0.ne_zero = true ∨ node.transform.pers1.ne_zero = true ∨
        node.transform.pers2.ne_one = true)) ∧
    (∀ args, Log.g_printerr " translate(%g, %g)" args ∈
        fl_accessibility_plugin_handle_update_semantics_node E node ↔
      (node.transform.transX.ne_zero = true ∨ node.transform.transY.ne_zero = true) ∧
        args = [.dbl node.transform.transX, .dbl node.transform.transY]) ∧
    (∀ args, Log.g_printerr " scale(%g, %g)" args ∈
        fl_accessibility_plugin_handle_update_semantics_node E node ↔
      (node.transform.scaleX.ne_one = true ∨ node.transform.scaleY.ne_one = true) ∧
        args = [.dbl node.transform.scaleX, .dbl node.transform.scaleY]) ∧
    (∀ args, Log.g_printerr " skew(%g, %g)" args ∈
        fl_accessibility_plugin_handle_update_semantics_node E node ↔
      (node.transform.skewX.ne_zero = true ∨ node.transform.skewY.ne_zero = true) ∧
        args = [.dbl node.transform.skewX, .dbl node.transform.skewY]) ∧
    (∀ args, Log.g_printerr " perspective(%g, %g, %g)" args ∈
        fl_accessibility_plugin_handle_update_semantics_node E node ↔
      (node.transform.pers0.ne_zero = true ∨ node.transform.pers1.ne_zero = true ∨
          node.transform.pers2.ne_one = true) ∧
        args = [.dbl node.transform.pers0, .dbl node.transform.pers1,
          .dbl node.transform.pers2]) ∧
    (Log.g_printerr "  transform:" [] ∈
        fl_accessibility_plugin_handle_update_semantics_node E node →
      ∃ fmt args, fmt ∈ [" translate(%g, %g)", " scale(%g, %g)", " skew(%g, %g)",
          " perspective(%g, %g, %g)"] ∧
        Log.g_printerr fmt args ∈
          fl_accessibility_plugin_handle_update_semantics_node E node) ∧
    (∀ x : Double, x.ne_zero = false ↔ x.exponent = 0 ∧ x.mantissa = 0) ∧
    (∀ x : Double, x.ne_one = false ↔ x = Double.one) := by
  have hheader : Log.g_printerr "  transform:" [] ∈
        fl_accessibility_plugin_handle_update_semantics_node E node ↔
      (node.transform.transX.ne_zero = true ∨ node.transform.transY.ne_zero = true ∨
        node.transform.scaleX.ne_one = true ∨ node.transform.scaleY.ne_one = true ∨
        node.transform.skewX.ne_zero = true ∨ node.transform.skewY.ne_zero = true ∨
        node.transform.pers0.ne_zero = true ∨ node.transform.pers1.ne_zero = true ∨
        node.transform.pers2.ne_one = true) := by
    rw [node_log_transform E node hid _ (by simp [Log.fmt])]
    simp [print_transform]
    tauto
  have htranslate : ∀ args, Log.g_printerr " translate(%g, %g)" args ∈
        fl_accessibility_plugin_handle_update_semantics_node E node ↔
      (node.transform.transX.ne_zero = true ∨ node.transform.transY.ne_zero = true) ∧
        args = [.dbl node.transform.transX, .dbl node.transform.transY] := by
    intro args
    clear hheader
    rw [node_log_transform E node hid _ (by simp [Log.fmt])]
    simp [print_transform]
    tauto
  have hscale : ∀ args, Log.g_printerr " scale(%g, %g)" args ∈
        fl_accessibility_plugin_handle_update_semantics_node E node ↔
      (node.transform.scaleX.ne_one = true ∨ node.transform.scaleY.ne_one = true) ∧
        args = [.dbl node.transform.scaleX, .dbl node.transform.scaleY] := by
    intro args
    clear hheader htranslate
    rw [node_log_transform E node hid _ (by simp [Log.fmt])]
    simp [print_transform]
    tauto
  have hskew : ∀ args, Log.g_printerr " skew(%g, %g)" args ∈
        fl_accessibility_plugin_handle_update_semantics_node E node ↔
      (node.transform.skewX.ne_zero = true ∨ node.transform.skewY.ne_zero = true) ∧
        args = [.dbl node.transform.skewX, .dbl node.transform.skewY] := by
    intro args
    clear hheader htranslate hscale
    rw [node_log_transform E node hid _ (by simp [Log.fmt])]
    simp [print_transform]
    tauto
  have hpers : ∀ args, Log.g_printerr " perspective(%g, %g, %g)" args ∈
        fl_accessibility_plugin_handle_update_semantics_node E node ↔
      (node.transform.pers0.ne_zero = true ∨ node.transform.pers1.ne_zero = true ∨
          node.transform.pers2.ne_one = true) ∧
        args = [.dbl node.transform.pers0, .dbl node.transform.pers1,
          .dbl node.transform.pers2] := by
    intro args
    clear hheader htranslate hscale hskew
    rw [node_log_transform E node hid _ (by simp [Log.fmt])]
    simp [print_transform]
    tauto
  refine ⟨hheader, htranslate, hscale, hskew, hpers, ?_, ?_, ?_⟩
  · intro h
    rcases hheader.1 h with c | c | c | c | c | c | c | c | c
    · exact ⟨_, _, by simp, (htranslate _).2 ⟨Or.inl c, rfl⟩⟩
    · exact ⟨_, _, by simp, (htranslate _).2 ⟨Or.inr c, rfl⟩⟩
    · exact ⟨_, _, by simp, (hscale _).2 ⟨Or.inl c, rfl⟩⟩
    · exact ⟨_, _, by simp, (hscale _).2 ⟨Or.inr c, rfl⟩⟩
    · exact ⟨_, _, by simp, (hskew _).2 ⟨Or.inl c, rfl⟩⟩
    · exact ⟨_, _, by simp, (hskew _).2 ⟨Or.inr c, rfl⟩⟩
    · exact ⟨_, _, by simp, (hpers _).2 ⟨Or.inl c, rfl⟩⟩
    · exact ⟨_, _, by simp, (hpers _).2 ⟨Or.inr (Or.inl c), rfl⟩⟩
    · exact ⟨_, _, by simp, (hpers _).2 ⟨Or.inr (Or.inr c), rfl⟩⟩
  · intro x
    simp [Double.ne_zero]
  · intro x
    obtain ⟨s, e, m⟩ := x
    simp [Double.ne_one, Double.one, and_assoc]

theorem transform_groups_witness :
    sample_node_scaled.id ≠ embedder_h.kFlutterSemanticsCustomActionIdBatchEnd ∧
      Log.g_printerr "  transform:" [] ∈
        fl_accessibility_plugin_handle_update_semantics_node embedder_h sample_node_scaled ∧
      Log.g_printerr " scale(%g, %g)" [.dbl Double.two, .dbl Double.one] ∈
        fl_accessibility_plugin_handle_update_semantics_node embedder_h sample_node_scaled :=
  ⟨by decide,
    (transform_groups embedder_h sample_node_scaled (by decide)).1.2
      (Or.inr (Or.inr (Or.inl rfl))),
    ((transform_groups embedder_h sample_node_scaled (by decide)).2.2.1
      [.dbl Double.two, .dbl Double.one]).2 ⟨Or.inl rfl, rfl⟩⟩

/-! ## The destructive decoder against the pure one -/

theorem has_flag_keeps_other_bits (w k j : Nat) (hkj : k ≠ j) :
    (has_flag w (2 ^ k)).2 &&& 2 ^ j ≠ 0 ↔ w &&& 2 ^ j ≠ 0 := by
  rw [and_two_pow_ne_zero, and_two_pow_ne_zero, has_flag_two_pow_snd, Nat.testBit_ldiff,
    Nat.testBit_two_pow]
  simp [hkj]

/-- Over distinct single bits, the run of tests on the working copy writes the
texts of the entries whose bit is set in the input, in table order. -/
theorem test_bits_fst (table : List (Nat × String)) (hd : DistinctSingleBits table) (w : Nat) :
    (test_bits has_flag table w).1 =
      (table.filter fun e => decide (w &&& e.1 ≠ 0)).map fun e => Log.g_printerr e.2 [] := by
  induction table generalizing w with
  | nil => simp [test_bits]
  | cons e rest ih =>
    obtain ⟨c, t⟩ := e
    obtain ⟨hs, hn⟩ := hd
    obtain ⟨k, hk⟩ := hs (c, t) (List.mem_cons_self _ _)
    simp only at hk
    subst hk
    have hrest : DistinctSingleBits rest :=
      ⟨fun e he => hs e (List.mem_cons_of_mem _ he), (List.nodup_cons.1 hn).2⟩
    have hnotin : (2 ^ k) ∉ rest.map Prod.fst := (List.nodup_cons.1 hn).1
    have hfilter : (rest.filter fun e => decide ((has_flag w (2 ^ k)).2 &&& e.1 ≠ 0)) =
        rest.filter fun e => decide (w &&& e.1 ≠ 0) := by
      apply List.filter_congr
      intro e he
      obtain ⟨j, hj⟩ := hs e (List.mem_cons_of_mem _ he)
      have hkj : k ≠ j := by
        intro hkj
        apply hnotin
        rw [hkj, ← hj]
        exact List.mem_map_of_mem _ he
      rw [hj]
      exact decide_eq_decide.2 (has_flag_keeps_other_bits w k j hkj)
    simp only [test_bits]
    rw [ih hrest, hfilter, has_flag_two_pow_fst]
    cases hbit : w.testBit k
    · have h0 : ¬ (w &&& 2 ^ k ≠ 0) := by
        rw [and_two_pow_ne_zero, hbit]
        simp
      rw [List.filter_cons_of_neg (by simpa using h0)]
      simp
    · have h1 : w &&& 2 ^ k ≠ 0 := (and_two_pow_ne_zero w k).2 hbit
      rw [List.filter_cons_of_pos (by simpa using h1)]
      simp

/-- The block written from the pure decoder: header, recognised texts,
residual when not zero, newline. -/
theorem print_bits_eq_pure (header : String) (table : List (Nat × String))
    (hd : DistinctSingleBits table) (mask : Nat) :
    print_bits header table mask =
      if mask ≠ 0 then
        [Log.g_printerr header []]
          ++ (pure_decode table mask).1.map (fun t => Log.g_printerr t [])
          ++ (if (pure_decode table mask).2 ≠ 0 then
              [Log.g_printerr " 0x%x" [.uint (pure_decode table mask).2]] else [])
          ++ [Log.g_printerr "\n" []]
      else [] := by
  unfold print_bits pure_decode
  simp only [test_bits_fst table hd, test_bits_snd table hd.1, List.map_map]
  rfl

/-- Whatever the test function, a run of tests writes texts of the table in
table order: the texts written form a sublist of the texts of the table. -/
theorem test_bits_sublist (has : Nat → Nat → Bool × Nat) (table : List (Nat × String))
    (w : Nat) :
    ∃ names : List String, names.Sublist (table.map Prod.snd) ∧
      (test_bits has table w).1 = names.map fun t => Log.g_printerr t [] := by
  induction table generalizing w with
  | nil => exact ⟨[], List.Sublist.slnil, rfl⟩
  | cons e rest ih =>
    obtain ⟨c, t⟩ := e
    obtain ⟨names, hsub, hnames⟩ := ih (has w c).2
    simp only [test_bits, hnames]
    cases (has w c).1
    · exact ⟨names, List.Sublist.cons _ hsub, by simp⟩
    · exact ⟨t :: names, List.Sublist.cons₂ _ hsub, by simp⟩

theorem print_bits_shape (has : Nat → Nat → Bool × Nat) (header : String)
    (table : List (Nat × String)) (mask : Nat) (block : List Log)
    (hblock : block =
      if mask ≠ 0 then
        [Log.g_printerr header []] ++ (test_bits has table mask).1
          ++ (if (test_bits has table mask).2 ≠ 0 then
              [Log.g_printerr " 0x%x" [.uint (test_bits has table mask).2]] else [])
          ++ [Log.g_printerr "\n" []]
      else []) (hnodup : (table.map Prod.snd).Nodup) :
    block = [] ∨
      ∃ (names : List String) (leftover : List Log),
        names.Sublist (table.map Prod.snd) ∧ names.Nodup ∧
        (leftover = [] ∨ ∃ v, leftover = [Log.g_printerr " 0x%x" [.uint v]]) ∧
        block =
          [Log.g_printerr header []] ++ names.map (fun t => Log.g_printerr t [])
            ++ leftover ++ [Log.g_printerr "\n" []] := by
  by_cases hm : mask = 0
  · left
    rw [hblock, if_neg (by simpa using hm)]
  · right
    obtain ⟨names, hsub, hnames⟩ := test_bits_sublist has table mask
    rw [if_pos hm, hnames] at hblock
    refine ⟨names, _, hsub, hsub.nodup hnodup, ?_, hblock⟩
    split
    · exact Or.inr ⟨_, rfl⟩
    · exact Or.inl rfl

/-- C13: when the enumerated constants are distinct single bits, the
destructive decoding of the code (test every enumerated bit with `has_flag`,
resp. `has_action`, on a working copy and report what remains) gives, for every
input mask, what the pure decoder gives: the same recognised texts and the same
residual, and the block printed is the one built from the pure result. -/
theorem destructive_decoding_refines_pure (E : Embedder)
    (hflags : DistinctSingleBits (flag_table E))
    (hactions : DistinctSingleBits (action_table E)) (mask : Nat) :
    ((test_bits has_flag (flag_table E) mask).1 =
        (pure_decode (flag_table E) mask).1.map (fun t => Log.g_printerr t []) ∧
      (test_bits has_flag (flag_table E) mask).2 = (pure_decode (flag_table E) mask).2 ∧
      print_flags E mask =
        if mask ≠ 0 then
          [Log.g_printerr "  flags:" []]
            ++ (pure_decode (flag_table E) mask).1.map (fun t => Log.g_printerr t [])
            ++ (if (pure_decode (flag_table E) mask).2 ≠ 0 then
                [Log.g_printerr " 0x%x" [.uint (pure_decode (flag_table E) mask).2]] else [])
            ++ [Log.g_printerr "\n" []]
        else []) ∧
    ((test_bits has_action (action_table E) mask).1 =
        (pure_decode (action_table E) mask).1.map (fun t => Log.g_printerr t []) ∧
      (test_bits has_action (action_table E) mask).2 = (pure_decode (action_table E) mask).2 ∧
      print_actions E mask =
        if mask ≠ 0 then
          [Log.g_printerr "  actions:" []]
            ++ (pure_decode (action_table E) mask).1.map (fun t => Log.g_printerr t [])
            ++ (if (pure_decode (action_table E) mask).2 ≠ 0 then
                [Log.g_printerr " 0x%x" [.uint (pure_decode (action_table E) mask).2]]
              else [])
            ++ [Log.g_printerr "\n" []]
        else []) := by
  rw [has_action_eq_has_flag, print_flags_eq, print_actions_eq]
  refine ⟨⟨?_, ?_, print_bits_eq_pure _ _ hflags mask⟩,
    ⟨?_, ?_, print_bits_eq_pure _ _ hactions mask⟩⟩
  · rw [test_bits_fst _ hflags]
    simp [pure_decode, List.map_map]
  · rw [test_bits_snd _ hflags.1]
    rfl
  · rw [test_bits_fst _ hactions]
    simp [pure_decode, List.map_map]
  · rw [test_bits_snd _ hactions.1]
    rfl

theorem destructive_decoding_refines_pure_witness :
    DistinctSingleBits (flag_table embedder_h) ∧
      DistinctSingleBits (action_table embedder_h) ∧
      (test_bits has_flag (flag_table embedder_h) 0x80000a).1 =
        (pure_decode (flag_table embedder_h) 0x80000a).1.map (fun t => Log.g_printerr t []) ∧
      (test_bits has_action (action_table embedder_h) 0x80000a).2 =
        (pure_decode (action_table embedder_h) 0x80000a).2 :=
  ⟨embedder_h_flags, embedder_h_actions,
    (destructive_decoding_refines_pure embedder_h embedder_h_flags embedder_h_actions
      0x80000a).1.1,
    (destructive_decoding_refines_pure embedder_h embedder_h_flags embedder_h_actions
      0x80000a).2.2.1⟩

/-- C14: for every input mask and whatever the values of the constants, the
`flags` block is empty or consists of the header, then texts forming a sublist
of the fixed list `flag_names` (so in that order and each at most once), then
at most one leftover entry, then the newline; the `actions` block has the same
shape over `action_names`. -/
theorem names_in_enumeration_order (E : Embedder) (mask : Nat) :
    (print_flags E mask = [] ∨
      ∃ (names : List String) (leftover : List Log),
        names.Sublist flag_names ∧ names.Nodup ∧
        (leftover = [] ∨ ∃ v, leftover = [Log.g_printerr " 0x%x" [.uint v]]) ∧
        print_flags E mask =
          [Log.g_printerr "  flags:" []] ++ names.map (fun t => Log.g_printerr t [])
            ++ leftover ++ [Log.g_printerr "\n" []]) ∧
    (print_actions E mask = [] ∨
      ∃ (names : List String) (leftover : List Log),
        names.Sublist action_names ∧ names.Nodup ∧
        (leftover = [] ∨ ∃ v, leftover = [Log.g_printerr " 0x%x" [.uint v]]) ∧
        print_actions E mask =
          [Log.g_printerr "  actions:" []] ++ names.map (fun t => Log.g_printerr t [])
            ++ leftover ++ [Log.g_printerr "\n" []]) := by
  constructor
  · have h := print_bits_shape has_flag "  flags:" (flag_table E) mask (print_flags E mask)
      rfl (flag_names_nodup E)
    rw [flag_table_names] at h
    exact h
  · have h := print_bits_shape has_action "  actions:" (action_table E) mask
      (print_actions E mask) rfl (action_names_nodup E)
    rw [action_table_names] at h
    exact h

/-- C18: `has_flag` and `has_action` return TRUE exactly when the mask and the
flag have a common bit; on a single-bit flag `2 ^ k`, a TRUE result leaves the
mask AND NOT the flag in the working copy (bit `k` cleared, every other bit
kept), a FALSE result leaves the working copy as it was, and in both cases the
working copy is a sub-mask of the mask. -/
theorem has_flag_clears_exactly_the_bit (m f k : Nat) :
    (((has_flag m f).1 = true ↔ m &&& f ≠ 0) ∧
      ((has_flag m (2 ^ k)).1 = true → (has_flag m (2 ^ k)).2 = Nat.ldiff m (2 ^ k)) ∧
      ((has_flag m (2 ^ k)).1 = true →
        ∀ i, ((has_flag m (2 ^ k)).2).testBit i = (m.testBit i && decide (i ≠ k))) ∧
      ((has_flag m f).1 = false → (has_flag m f).2 = m) ∧
      (has_flag m (2 ^ k)).2 &&& m = (has_flag m (2 ^ k)).2) ∧
    (((has_action m f).1 = true ↔ m &&& f ≠ 0) ∧
      ((has_action m (2 ^ k)).1 = true → (has_action m (2 ^ k)).2 = Nat.ldiff m (2 ^ k)) ∧
      ((has_action m (2 ^ k)).1 = true →
        ∀ i, ((has_action m (2 ^ k)).2).testBit i = (m.testBit i && decide (i ≠ k))) ∧
      ((has_action m f).1 = false → (has_action m f).2 = m) ∧
      (has_action m (2 ^ k)).2 &&& m = (has_action m (2 ^ k)).2) := by
  have hmain : ((has_flag m f).1 = true ↔ m &&& f ≠ 0) ∧
      ((has_flag m (2 ^ k)).1 = true → (has_flag m (2 ^ k)).2 = Nat.ldiff m (2 ^ k)) ∧
      ((has_flag m (2 ^ k)).1 = true →
        ∀ i, ((has_flag m (2 ^ k)).2).testBit i = (m.testBit i && decide (i ≠ k))) ∧
      ((has_flag m f).1 = false → (has_flag m f).2 = m) ∧
      (has_flag m (2 ^ k)).2 &&& m = (has_flag m (2 ^ k)).2 := by
    refine ⟨?_, ?_, ?_, ?_, ?_⟩
    · unfold has_flag
      by_cases h : m &&& f = 0 <;> simp [h]
    · intro _
      exact has_flag_two_pow_snd m k
    · intro _ i
      rw [has_flag_two_pow_snd, Nat.testBit_ldiff, Nat.testBit_two_pow]
      by_cases hik : i = k
      · subst hik
        simp
      · have hki : ¬ k = i := fun h => hik h.symm
        simp [hik, hki]
    · unfold has_flag
      by_cases h : m &&& f = 0 <;> simp [h]
    · rw [has_flag_two_pow_snd]
      apply Nat.eq_of_testBit_eq
      intro i
      simp only [Nat.testBit_and, Nat.testBit_ldiff]
      cases m.testBit i <;> cases (2 ^ k).testBit i <;> rfl
  exact ⟨hmain, has_action_eq_has_flag ▸ hmain⟩

theorem has_flag_clears_exactly_the_bit_witness :
    (has_flag 10 (2 ^ 3)).1 = true ∧ (has_flag 10 (2 ^ 3)).2 = Nat.ldiff 10 (2 ^ 3) ∧
      (has_flag 10 (2 ^ 2)).1 = false ∧ (has_flag 10 (2 ^ 2)).2 = 10 :=
  ⟨by decide, (has_flag_clears_exactly_the_bit 10 (2 ^ 3) 3).1.2.1 (by decide), by decide,
    (has_flag_clears_exactly_the_bit 10 (2 ^ 2) 2).1.2.2.2.1 (by decide)⟩

/-! ## Dispatch and the channel callback -/

theorem handle_announce_ne_debug (data : Option FlValue) (fmt : String) (args : List Arg) :
    handle_announce data ≠ (none, [.g_debug fmt args]) := by
  intro h
  have h2 := congrArg Prod.snd h
  unfold handle_announce at h2
  split at h2
  · simp at h2
  · split at h2 <;> simp at h2

theorem handle_tooltip_ne_debug (data : Option FlValue) (fmt : String) (args : List Arg) :
    handle_tooltip data ≠ (none, [.g_debug fmt args]) := by
  intro h
  have h2 := congrArg Prod.snd h
  unfold handle_tooltip at h2
  split at h2
  · simp at h2
  · split at h2 <;> simp at h2

theorem handle_tap_ne_debug (node_id : Int) (fmt : String) (args : List Arg) :
    handle_tap node_id ≠ (none, [.g_debug fmt args]) := by
  intro h
  have h2 := congrArg Prod.snd h
  simp [handle_tap] at h2

theorem handle_long_press_ne_debug (node_id : Int) (fmt : String) (args : List Arg) :
    handle_long_press node_id ≠ (none, [.g_debug fmt args]) := by
  intro h
  have h2 := congrArg Prod.snd h
  simp [handle_long_press] at h2

/-- C15: `handle_message` chooses its arm by equality of the `type` string with
the four literals: "announce" gives the result of `handle_announce` on `data`,
"tap" that of `handle_tap` and "longPress" that of `handle_long_press`, both on
the same `node_id` (the integer under `nodeId`, else `-1`), "tooltip" that of
`handle_tooltip` on `data`; any other string, such as "Tap", "longpress",
"tap " or the empty string, gives the debug entry, which no handler produces.
The four literals are pairwise distinct, so one arm is taken. -/
theorem dispatch_on_type_string (entries : List (FlValue × FlValue)) (t : String)
    (htype : fl_value_lookup_string (some (.map entries)) "type" = some (.string t)) :
    (t = "announce" →
      handle_message (.map entries) =
        handle_announce (fl_value_lookup_string (some (.map entries)) "data")) ∧
    (t = "tap" →
      handle_message (.map entries) = handle_tap (message_node_id (.map entries))) ∧
    (t = "longPress" →
      handle_message (.map entries) = handle_long_press (message_node_id (.map entries))) ∧
    (t = "tooltip" →
      handle_message (.map entries) =
        handle_tooltip (fl_value_lookup_string (some (.map entries)) "data")) ∧
    (t ∉ ["announce", "tap", "longPress", "tooltip"] →
      handle_message (.map entries) =
          (none, [.g_debug "Got unknown accessibility message: %s" [.str t]]) ∧
        ∀ (data : Option FlValue) (node_id : Int),
          handle_message (.map entries) ≠ handle_announce data ∧
          handle_message (.map entries) ≠ handle_tap node_id ∧
          handle_message (.map entries) ≠ handle_long_press node_id ∧
          handle_message (.map entries) ≠ handle_tooltip data) ∧
    (∀ s ∈ ["Tap", "longpress", "tap ", "", "ANNOUNCE", "toolTip", "longPress "],
      s ∉ ["announce", "tap", "longPress", "tooltip"]) ∧
    ["announce", "tap", "longPress", "tooltip"].Nodup ∧
    (∀ n : Int, fl_value_lookup_string (some (.map entries)) "nodeId" = some (.int n) →
      message_node_id (.map entries) = n) ∧
    ((∀ n : Int, fl_value_lookup_string (some (.map entries)) "nodeId" ≠ some (.int n)) →
      message_node_id (.map entries) = -1) := by
  have h := handle_message_of_type entries t htype
  refine ⟨?_, ?_, ?_, ?_, ?_, by decide, by decide, ?_, ?_⟩
  · intro ht
    rw [h, if_pos ht]
  · intro ht
    subst ht
    rw [h]
    simp [message_node_id]
  · intro ht
    subst ht
    rw [h]
    simp [message_node_id]
  · intro ht
    subst ht
    rw [h]
    simp
  · intro ht
    simp only [List.mem_cons, List.mem_singleton, List.not_mem_nil, or_false, not_or] at ht
    obtain ⟨h1, h2, h3, h4⟩ := ht
    have hd : handle_message (.map entries) =
        (none, [.g_debug "Got unknown accessibility message: %s" [.str t]]) := by
      rw [h, if_neg h1, if_neg h2, if_neg h3, if_neg h4]
    refine ⟨hd, ?_⟩
    intro data node_id
    rw [hd]
    exact ⟨fun e => handle_announce_ne_debug _ _ _ e.symm,
      fun e => handle_tap_ne_debug _ _ _ e.symm,
      fun e => handle_long_press_ne_debug _ _ _ e.symm,
      fun e => handle_tooltip_ne_debug _ _ _ e.symm⟩
  · intro n hn
    simp [message_node_id, hn, fl_value_get_type, fl_value_get_int]
  · intro hn
    unfold message_node_id
    split
    · rfl
    · next v hv =>
      split
      · next hty =>
        obtain ⟨n, rfl⟩ := (type_int_iff v).1 hty
        exact absurd hv (hn n)
      · rfl

theorem dispatch_on_type_string_witness :
    handle_message (.map [(.string "type", .string "longPress"), (.string "nodeId", .int 5)]) =
        handle_long_press 5 ∧
      handle_message (.map [(.string "type", .string "Tap"), (.string "nodeId", .int 5)]) =
        (none, [.g_debug "Got unknown accessibility message: %s" [.str "Tap"]]) ∧
      handle_message (.map [(.string "type", .string "tap "), (.string "nodeId", .int 5)]) =
        (none, [.g_debug "Got unknown accessibility message: %s" [.str "tap "]]) ∧
      handle_message (.map [(.string "type", .string "")]) =
        (none, [.g_debug "Got unknown accessibility message: %s" [.str ""]]) :=
  ⟨(dispatch_on_type_string
      [(.string "type", .string "longPress"), (.string "nodeId", .int 5)] "longPress"
      (by rfl)).2.2.1 rfl,
    ((dispatch_on_type_string [(.string "type", .string "Tap"), (.string "nodeId", .int 5)]
      "Tap" (by rfl)).2.2.2.2.1 (by decide)).1,
    ((dispatch_on_type_string [(.string "type", .string "tap "), (.string "nodeId", .int 5)]
      "tap " (by rfl)).2.2.2.2.1 (by decide)).1,
    ((dispatch_on_type_string [(.string "type", .string "")] "" (by rfl)).2.2.2.2.1
      (by decide)).1⟩

theorem filter_is_respond_log (logs : List Log) :
    (logs.map Effect.log).filter Effect.is_respond = [] := by
  induction logs with
  | nil => rfl
  | cons l rest ih => simp [Effect.is_respond]

/-- C16: for every message, `message_cb` calls
`fl_basic_message_channel_respond` exactly once, after the log of
`handle_message`, on the channel and response handle it was given and with the
value `handle_message` returned (the null response); when the call fails the
only further effect is one warning carrying the error text, and in either case
the plugin object (registry and channel) is returned as it was. -/
theorem message_cb_responds_once (respond : Nat → Nat → Option FlValue → Option String)
    (channel : Nat) (message : FlValue) (response_handle : Nat) (self : FlAccessibilityPlugin) :
    (message_cb respond channel message response_handle self).1 = self ∧
    (message_cb respond channel message response_handle self).2.filter Effect.is_respond =
      [Effect.respond channel response_handle (handle_message message).1] ∧
    (handle_message message).1 = none ∧
    (respond channel response_handle (handle_message message).1 = none →
      (message_cb respond channel message response_handle self).2 =
        (handle_message message).2.map Effect.log
          ++ [Effect.respond channel response_handle (handle_message message).1]) ∧
    (∀ text : String,
      respond channel response_handle (handle_message message).1 = some text →
      (message_cb respond channel message response_handle self).2 =
        (handle_message message).2.map Effect.log
          ++ [Effect.respond channel response_handle (handle_message message).1]
          ++ [Effect.log (.g_warning "Failed to send message response: %s" [.str text])]) := by
  refine ⟨rfl, ?_, handle_message_fst_none message, ?_, ?_⟩
  · unfold message_cb
    simp only [List.filter_append, filter_is_respond_log]
    cases respond channel response_handle (handle_message message).1 <;>
      simp [Effect.is_respond]
  · intro h
    unfold message_cb
    simp only [h, List.append_nil]
  · intro text h
    unfold message_cb
    simp only [h]

theorem message_cb_responds_once_witness :
    (message_cb (fun _ _ _ => some "closed") 1 (.list []) 9 (fl_accessibility_plugin_new 1)).2 =
      (handle_message (.list [])).2.map Effect.log
        ++ [Effect.respond 1 9 (handle_message (.list [])).1]
        ++ [Effect.log (.g_warning "Failed to send message response: %s" [.str "closed"])] :=
  (message_cb_responds_once (fun _ _ _ => some "closed") 1 (.list []) 9
    (fl_accessibility_plugin_new 1)).2.2.2.2 "closed" rfl

end FlAccessibility
